import Mathlib

/-!
# Verification of `verify_case.py` (SherbotV2 case verifier)

A shallow embedding of the validation engine of `verify_case.py`: the raw-text
duplicate-key scanner, the map graph checker, the suspects/solution checker, the
evidence cross-reference checker, the secret-trigger checker and the narrative
coherence checker, together with theorems settling the specification claims.

Modelling conventions:
* The parsed document tree (produced by `yaml.safe_load` / `json.loads`) is the
  inductive `Value`.  Parsed mappings are association lists in insertion order;
  a parser never produces duplicate keys.  Mapping keys are modelled as strings:
  the case documents use string keys throughout.
* Python exceptions are modelled with `Except PyExc`; a check that cannot raise
  is a pure function.
* Python `set` objects are modelled as lists used only through membership,
  except where the source iterates a set: there the iteration order is an
  explicit parameter `enum` (CPython iterates string sets in a hash-dependent,
  per-process-randomised order, so the order is not determined by the document).
* Machine integers are `Int` (Python integers are unbounded, so no wrap-around
  modelling is needed).
-/

namespace VerifyCase

/-- Kinds of Python exception that the verifier's code can raise. -/
inductive PyExc where
  | keyError
  | typeError
  | indexError
  | attributeError
deriving Repr, DecidableEq

/-- The diagnostics collector (`class Result`): two ordered, append-only
message sequences. -/
structure Result where
  errors : List String
  warnings : List String
deriving Repr, DecidableEq

/-- `Result.err` (`self.errors.append(msg)`). -/
def Result.err (r : Result) (m : String) : Result :=
  ⟨r.errors ++ [m], r.warnings⟩

/-- `Result.warn` (`self.warnings.append(msg)`). -/
def Result.warn (r : Result) (m : String) : Result :=
  ⟨r.errors, r.warnings ++ [m]⟩

/-- Concatenation of two collectors (used to assemble the messages a source
function appends to the caller's collector, in order). -/
def Result.append (r s : Result) : Result :=
  ⟨r.errors ++ s.errors, r.warnings ++ s.warnings⟩

/-- The generic parsed document tree: nested mappings / sequences / scalars as
produced by the external parser.  Mappings keep insertion order and have unique
keys. -/
inductive Value where
  | none : Value
  | bool : Bool → Value
  | int : Int → Value
  | str : String → Value
  | list : List Value → Value
  | dict : List (String × Value) → Value

/-- Python truthiness (`if x:`): `None`, `False`, `0`, `''`, `[]`, `{}` are
falsy, everything else truthy. -/
def pyTruthy : Value → Bool
  | .none => false
  | .bool b => b
  | .int n => n != 0
  | .str s => s != ""
  | .list l => !l.isEmpty
  | .dict d => !d.isEmpty

/-- Python `==` on parsed values.  Scalars compare by value (`True == 1` holds
since `bool` is an `int` subclass); lists compare element-wise; mappings (with
unique keys, as produced by the parser) compare as key/value sets. -/
def pyEq : Value → Value → Bool
  | .none, .none => true
  | .bool a, .bool b => a == b
  | .bool a, .int b => (if a then (1 : Int) else 0) == b
  | .int a, .bool b => a == (if b then (1 : Int) else 0)
  | .int a, .int b => a == b
  | .str a, .str b => a == b
  | .list a, .list b => goList a b
  | .dict a, .dict b => a.length == b.length && goEntries a b
  | _, _ => false
where
  /-- Element-wise Python equality of two sequences. -/
  goList : List Value → List Value → Bool
    | [], [] => true
    | x :: xs, y :: ys => pyEq x y && goList xs ys
    | _, _ => false
  /-- Every entry of the first mapping has an equal entry in the second
  (keys are unique, so key lookup finds the one candidate). -/
  goEntries : List (String × Value) → List (String × Value) → Bool
    | [], _ => true
    | kv :: rest, b =>
      (match b.lookup kv.1 with
       | some v2 => pyEq kv.2 v2
       | Option.none => false) && goEntries rest b

/-- Python `repr()` of a parsed value (strings gain quotes; escaping inside
string reprs is not modelled, the verifier never prints strings that need
it). -/
def pyRepr : Value → String
  | .str s => "'" ++ s ++ "'"
  | .none => "None"
  | .bool b => if b then "True" else "False"
  | .int n => toString n
  | .list l => "[" ++ String.intercalate ", " (goList l) ++ "]"
  | .dict d => "\x7b" ++ String.intercalate ", " (goEntries d) ++ "\x7d"
where
  /-- `repr` of each element of a sequence. -/
  goList : List Value → List String
    | [] => []
    | v :: vs => pyRepr v :: goList vs
  /-- `repr` of each entry of a mapping (the key is a string, so its `repr`
  is inlined as quoting). -/
  goEntries : List (String × Value) → List String
    | [] => []
    | (k, v) :: es => ("'" ++ k ++ "'" ++ ": " ++ pyRepr v) :: goEntries es

/-- Python `str()` of a parsed value, as interpolated by the verifier's
f-strings: the raw text of a string, `repr` of everything else (`str` and
`repr` agree away from strings). -/
def pyStr : Value → String
  | .str s => s
  | v => pyRepr v

/-- `type(x).__name__` for parsed values. -/
def pyTypeName : Value → String
  | .none => "NoneType"
  | .bool _ => "bool"
  | .int _ => "int"
  | .str _ => "str"
  | .list _ => "list"
  | .dict _ => "dict"

/-- A value Python can hash (usable as a set element / dict key).  Parsed
lists and mappings are unhashable. -/
def pyHashable : Value → Bool
  | .list _ => false
  | .dict _ => false
  | _ => true

/-- `d.get(key, default)` on a parsed value: mapping lookup with a default;
`.get` on a non-mapping raises `AttributeError`. -/
def pyGet (v : Value) (key : String) (dflt : Value) : Except PyExc Value :=
  match v with
  | .dict d => .ok ((d.lookup key).getD dflt)
  | _ => .error .attributeError

/-- `v[key]` with a string key: mapping lookup (`KeyError` if absent);
subscripting any other value with a string raises `TypeError`. -/
def pySubscript (v : Value) (key : String) : Except PyExc Value :=
  match v with
  | .dict d =>
    match d.lookup key with
    | some w => .ok w
    | Option.none => .error .keyError
  | _ => .error .typeError

/-- `for x in v`: mappings yield their keys, sequences their elements, strings
their characters; scalars are not iterable (`TypeError`). -/
def pyIterList (v : Value) : Except PyExc (List Value) :=
  match v with
  | .list l => .ok l
  | .dict d => .ok (d.map (fun kv => Value.str kv.1))
  | .str s => .ok (s.data.map (fun c => Value.str (String.mk [c])))
  | _ => .error .typeError

/-- `.items()` on a parsed value: the entry list of a mapping;
`AttributeError` otherwise. -/
def pyItems (v : Value) : Except PyExc (List (String × Value)) :=
  match v with
  | .dict d => .ok d
  | _ => .error .attributeError

/-- Membership of a value in a Python `set` whose elements are strings
(`x in s`).  Hashing an unhashable value raises `TypeError`; a non-string
scalar is never equal to a string. -/
def pyStrSetMem (v : Value) (s : List String) : Except PyExc Bool :=
  match v with
  | .list _ => .error .typeError
  | .dict _ => .error .typeError
  | .str x => .ok (s.contains x)
  | _ => .ok false

/-- Membership of a value in a Python `set` of parsed values. -/
def pySetMem (v : Value) (s : List Value) : Except PyExc Bool :=
  if pyHashable v then .ok (s.any (fun w => pyEq v w)) else .error .typeError

/-- Membership of a value in a parsed sequence or tuple (`x in l`): plain
equality scan, no hashing, never raises. -/
def pyListMem (v : Value) (l : List Value) : Bool :=
  l.any (fun w => pyEq v w)

/-- `s.update(xs)` on a Python set: add each element in order (`TypeError` on
an unhashable element), keeping one copy of each value. -/
def pySetAddAll (s : List Value) (xs : List Value) : Except PyExc (List Value) :=
  match xs with
  | [] => .ok s
  | x :: rest =>
    if pyHashable x then
      pySetAddAll (if s.any (fun w => pyEq x w) then s else s ++ [x]) rest
    else .error .typeError

/-- `x.lower()` for a parsed value: lower-cases a string, raises
`AttributeError` otherwise. -/
def pyLower (v : Value) : Except PyExc String :=
  match v with
  | .str s => .ok (String.mk (s.data.map Char.toLower))
  | _ => .error .attributeError

/-- Occurrence of `pat` as a contiguous run of `l` (for Python's substring
test); the empty pattern occurs in every list. -/
def listHasRun (pat : List Char) : List Char → Bool
  | [] => pat.isEmpty
  | c :: rest => pat.isPrefixOf (c :: rest) || listHasRun pat rest

/-- Python string membership `sub in s` (substring test). -/
def pyInStr (sub s : String) : Bool :=
  listHasRun sub.data s.data

/-! ## Raw-text duplicate-key scanner (`check_duplicate_keys_raw`) -/

/-- The whitespace characters stripped by Python's `str.strip` family (and
matched by the regex class `\s` for the verifier's ASCII inputs). -/
def isPySpace (c : Char) : Bool :=
  c = ' ' || c = '\t' || c = '\n' || c = '\r' || c = '\x0b' || c = '\x0c'

/-- `line.lstrip()`. -/
def pyLStrip (l : List Char) : List Char := l.dropWhile isPySpace

/-- `line.rstrip()`. -/
def pyRStrip (l : List Char) : List Char := (l.reverse.dropWhile isPySpace).reverse

/-- `line.strip()`. -/
def pyStrip (l : List Char) : List Char := pyRStrip (pyLStrip l)

/-- `s.strip(chars)`: remove the given characters from both ends. -/
def pyStripChars (cs : List Char) (l : List Char) : List Char :=
  ((l.dropWhile (fun c => cs.contains c)).reverse.dropWhile (fun c => cs.contains c)).reverse

/-- One `'\n'`-separated piece after another (`text.splitlines()` keeps no
empty final piece for a trailing newline; see `pySplitlines`). -/
def splitAtNL : List Char → List (List Char)
  | [] => [[]]
  | c :: rest =>
    let parts := splitAtNL rest
    if c = '\n' then [] :: parts
    else (c :: parts.headD []) :: parts.tail

/-- `text.splitlines()` for the newline forms appearing in case files. -/
def pySplitlines (l : List Char) : List (List Char) :=
  let parts := splitAtNL l
  if parts.getLast? = some [] then parts.dropLast else parts

/-- Backtracking of the lazy group in the scanner's quoted-key regex
`^(['\"])(.*?)\1\s*:`: the shortest run of characters followed by the closing
quote `q`, optional whitespace and a colon. -/
def quotedKeyAux (q : Char) (acc : List Char) : List Char → Option (List Char)
  | [] => Option.none
  | c :: cs =>
    if c = q && ((cs.dropWhile isPySpace).head? = some ':') then some acc
    else quotedKeyAux q (acc ++ [c]) cs

/-- The quoted-key regex applied to the stripped line: a single or double
quote at the start opens a quoted key. -/
def matchQuotedKey : List Char → Option (List Char)
  | c :: cs => if c = '\'' || c = '"' then quotedKeyAux c [] cs else Option.none
  | [] => Option.none

/-- `stripped.split(':')[0]`: the run of characters before the first colon. -/
def beforeColon (l : List Char) : List Char := l.takeWhile (fun c => c ≠ ':')

/-- One lexical scope of the scanner, a stack entry
`(indent_level, is_list_item_scope, seen)`; the seen-keys mapping records the
line number of each key's first occurrence in the scope. -/
structure Frame where
  indent : Int
  isListItemScope : Bool
  seen : List (List Char × Nat)
deriving Repr, DecidableEq

/-- `while len(scope_stack) > 1 and scope_stack[-1][0] >= indent: pop()`.
The innermost scope is the head; the base scope is never popped. -/
def popScopes (indent : Int) : List Frame → List Frame
  | [f] => [f]
  | f :: fs => if f.indent ≥ indent then popScopes indent fs else f :: fs
  | [] => []

/-- The duplicate-key error message. -/
def dupKeyMsg (lineno : Nat) (key : String) (prev : Nat) : String :=
  "Duplicate Key (line ~" ++ toString lineno ++ "): '" ++ key ++
    "' already seen at line ~" ++ toString prev ++
    " within the same mapping block — one entry will be silently dropped by YAML parsers"

/-- The key-handling tail of the scanner's line loop (after list-item
handling): extract the key, close finished scopes, check the innermost
scope's seen-keys mapping, and open a nested scope for a bare `key:` line. -/
def scanKey (stack : List Frame) (errs : List String) (lineno : Nat)
    (stripped : List Char) (indent : Int) : List Frame × List String :=
  if !stripped.contains ':' then (stack, errs)
  else
    let key :=
      match matchQuotedKey stripped with
      | some k => k
      | Option.none => pyStripChars ['\'', '"'] (pyStrip (beforeColon stripped))
    if key.isEmpty || key.head? = some '\x7b' then (stack, errs)
    else
      let stack1 := popScopes indent stack
      let (stack2, errs2) :=
        match stack1 with
        | [] => (stack1, errs)   -- unreachable: the base scope is never popped
        | f :: fs =>
          match f.seen.lookup key with
          | some prev => (f :: fs, errs ++ [dupKeyMsg lineno (String.mk key) prev])
          | Option.none => ({ f with seen := f.seen ++ [(key, lineno)] } :: fs, errs)
      if (pyRStrip stripped).getLast? = some ':' ||
          (!listHasRun [':', ' '] stripped && stripped.getLast? = some ':') then
        (Frame.mk (indent + 1) false [] :: stack2, errs2)
      else (stack2, errs2)

/-- Processing of one raw line by `check_duplicate_keys_raw`: skip blank and
comment lines, open a fresh scope for a list item, then handle the key. -/
def scanStep (stack : List Frame) (errs : List String) (lineno : Nat)
    (raw : List Char) : List Frame × List String :=
  let stripped0 := pyLStrip raw
  if stripped0.isEmpty || stripped0.head? = some '#' then (stack, errs)
  else
    let indent0 : Int := (raw.length : Int) - (stripped0.length : Int)
    if ['-', ' '].isPrefixOf stripped0 then
      let stack1 := Frame.mk indent0 true [] :: popScopes indent0 stack
      let stripped1 := pyLStrip (stripped0.drop 2)
      if stripped1.isEmpty || !stripped1.contains ':' then (stack1, errs)
      else scanKey stack1 errs lineno stripped1 (indent0 + 2)
    else scanKey stack errs lineno stripped0 indent0

/-- The scanner's line loop over already-split lines, starting at the given
line number. -/
def scanLinesAux (stack : List Frame) (errs : List String) (lineno : Nat) :
    List (List Char) → List String
  | [] => errs
  | l :: ls =>
    let st := scanStep stack errs lineno l
    scanLinesAux st.1 st.2 (lineno + 1) ls

/-- The scanner's initial scope stack: one base scope of indentation `-1`. -/
def initScopes : List Frame := [Frame.mk (-1) false []]

/-- `check_duplicate_keys_raw(text, r)`: the duplicate-key errors recorded for
the raw document text. -/
def check_duplicate_keys_raw (text : String) : List String :=
  scanLinesAux initScopes [] 1 (pySplitlines text.data)

/-! ## Map graph checker (`check_map`) -/

/-- Python `x in v` for a parsed container value: key membership for a
mapping, element membership for a sequence, substring for a string;
scalars are not containers (`TypeError`), and hashing an unhashable needle
against a mapping raises `TypeError`. -/
def pyInContainer (needle : Value) (v : Value) : Except PyExc Bool :=
  match v with
  | .dict d =>
    if pyHashable needle then .ok (d.any (fun kv => pyEq needle (.str kv.1)))
    else .error .typeError
  | .list l => .ok (pyListMem needle l)
  | .str s =>
    match needle with
    | .str sub => .ok (pyInStr sub s)
    | _ => .error .typeError
  | _ => .error .typeError

/-- `graph.get(node, [])` on the adjacency mapping. -/
def adjGet (graph : List (String × List String)) (node : String) : List String :=
  (graph.lookup node).getD []

/-- A filter over a weaker predicate keeps at least as many elements. -/
theorem length_filter_mono {l : List String} {p q : String → Bool}
    (himp : ∀ x, q x = true → p x = true) :
    (l.filter q).length ≤ (l.filter p).length := by
  induction l with
  | nil => simp
  | cons b bs ih =>
    cases hq : q b
    · cases hp : p b <;> simp [List.filter_cons, hq, hp] <;> omega
    · simp [List.filter_cons, hq, himp b hq]
      omega

/-- A filter over a strictly weaker predicate (witnessed by a member
satisfying only the weaker one) keeps strictly more elements. -/
theorem length_filter_lt {l : List String} {p q : String → Bool} {a : String}
    (ha : a ∈ l) (hpa : p a = true) (hqa : q a = false)
    (himp : ∀ x, q x = true → p x = true) :
    (l.filter q).length < (l.filter p).length := by
  induction l with
  | nil => cases ha
  | cons b bs ih =>
    rcases List.mem_cons.mp ha with rfl | hmem
    · simp [List.filter_cons, hqa, hpa]
      have := length_filter_mono (l := bs) himp
      omega
    · have hih := ih hmem
      cases hq : q b
      · cases hp : p b <;> simp [List.filter_cons, hq, hp] <;> omega
      · simp [List.filter_cons, hq, himp b hq]
        omega

/-- Boolean membership is false exactly for non-members. -/
theorem contains_eq_false_iff {α : Type} [BEq α] [LawfulBEq α]
    {l : List α} {a : α} :
    l.contains a = false ↔ a ∉ l := by
  constructor
  · intro h hm
    have h2 : l.contains a = true := List.elem_iff.mpr hm
    rw [h] at h2
    cases h2
  · intro hm
    cases he : l.contains a
    · rfl
    · exact absurd (List.elem_iff.mp he) hm

/-- Appending a different element does not change boolean membership. -/
theorem contains_append_singleton_ne {l : List String} {x node : String}
    (h : x ≠ node) : (l ++ [node]).contains x = l.contains x := by
  cases hc : l.contains x
  · have hx : x ∉ l := contains_eq_false_iff.mp hc
    exact contains_eq_false_iff.mpr (by simp [hx, h])
  · have hx : x ∈ l := List.elem_iff.mp hc
    exact List.elem_iff.mpr (List.mem_append_left _ hx)

/-- A key that is not among the stored keys has no lookup result. -/
theorem lookup_eq_none_of_not_mem {β : Type} {l : List (String × β)} {a : String}
    (h : a ∉ l.map Prod.fst) : l.lookup a = Option.none := by
  induction l with
  | nil => rfl
  | cons kv rest ih =>
    have hne : a ≠ kv.1 := by
      intro he
      exact h (by simp [he])
    have : (a == kv.1) = false := by simpa using hne
    calc (kv :: rest).lookup a = rest.lookup a := by
          rcases kv with ⟨k, v⟩
          simp [List.lookup, this]
      _ = Option.none := ih (fun hm => h (List.mem_cons_of_mem _ hm))

/-- `_dfs_reachable(start, graph)`: stack-based depth-first closure.  The
Python list used as a stack pops from its end; here the head of `stack`
models that end, so pushed neighbours are reversed.  `visited` is the
Python set in insertion order (used only through membership and difference
downstream). -/
def dfsAux (graph : List (String × List String)) (visited : List String)
    (stack : List String) : List String :=
  match stack with
  | [] => visited
  | node :: rest =>
    if node ∈ visited then dfsAux graph visited rest
    else dfsAux graph (visited ++ [node]) ((adjGet graph node).reverse ++ rest)
termination_by
  (((graph.map Prod.fst).filter (fun k => !visited.contains k)).length, stack.length)
decreasing_by
  · apply Prod.Lex.right
    simp
  · rename_i hnot
    by_cases hk : node ∈ graph.map Prod.fst
    · apply Prod.Lex.left
      apply length_filter_lt hk
      · simp only [Bool.not_eq_true']
        exact contains_eq_false_iff.mpr hnot
      · have : (visited ++ [node]).contains node = true := List.elem_iff.mpr (by simp)
        simp [this]
      · intro x hx
        simp only [Bool.not_eq_true'] at hx ⊢
        have hxm := contains_eq_false_iff.mp hx
        exact contains_eq_false_iff.mpr (fun hm => hxm (List.mem_append_left _ hm))
    · have hadj : adjGet graph node = [] := by
        simp [adjGet, lookup_eq_none_of_not_mem hk]
      have hfeq : ((graph.map Prod.fst).filter (fun k => !(visited ++ [node]).contains k))
          = ((graph.map Prod.fst).filter (fun k => !visited.contains k)) := by
        apply List.filter_congr
        intro x hx
        have hxne : x ≠ node := fun he => hk (he ▸ hx)
        simp only [contains_append_singleton_ne hxne]
      rw [hadj, hfeq]
      apply Prod.Lex.right
      simp

/-- `_dfs_reachable(start, graph)`. -/
def dfs_reachable (start : String) (graph : List (String × List String)) :
    List String :=
  dfsAux graph [] [start]

/-- Error for a `connects_to` target that is not a declared room. -/
def mapConnErrMsg (roomId : String) (t : Value) : String :=
  "Map: Room '" ++ roomId ++ "' connects_to non-existent room '" ++ pyStr t ++ "'"

/-- Warning for an edge without a return edge. -/
def oneWayMsg (roomId target : String) : String :=
  "Map: '" ++ roomId ++ "' → '" ++ target ++ "' is one-way (no return connection)"

/-- Warning for a room the depth-first traversal did not reach. -/
def unreachableMsg (roomId start : String) : String :=
  "Map: Room '" ++ roomId ++ "' is unreachable from '" ++ start ++
    "' — players may be stranded"

/-- Error when the document has no `map` key. -/
def noMapMsg : String := "Map: No 'map' key defined"

/-- Error when `murderLocation` is not a declared room. -/
def murderLocMsg (m : Value) : String :=
  "Map: murderLocation '" ++ pyStr m ++ "' not found in map rooms"

/-- Per-target validation inside the rooms loop of `check_map`: a target in
the room set extends the adjacency list (only a string can be in the set of
room-id strings), any other target is an error; an unhashable target cannot
be tested for set membership. -/
def processTargets (roomId : String) (rooms : List String) :
    List Value → Except PyExc (List String × List String)
  | [] => .ok ([], [])
  | t :: ts =>
    match t with
    | .list _ => .error .typeError
    | .dict _ => .error .typeError
    | .str s => do
      let rest ← processTargets roomId rooms ts
      if rooms.contains s then .ok (s :: rest.1, rest.2)
      else .ok (rest.1, mapConnErrMsg roomId (.str s) :: rest.2)
    | t => do
      let rest ← processTargets roomId rooms ts
      .ok (rest.1, mapConnErrMsg roomId t :: rest.2)

/-- The deferred interactable probe in the rooms loop: each interactable's
`evidence_id` is fetched and discarded (validation happens later in
`check_evidence_ids`). -/
def probeInteractables : List Value → Except PyExc Unit
  | [] => .ok ()
  | item :: rest => do
    let _ ← pyGet item "evidence_id" .none
    probeInteractables rest

/-- The main rooms loop of `check_map`: extracts each room's connection list
(descriptor object or bare list), probes interactables, and builds the
adjacency mapping in insertion order together with the dangling-connection
errors. -/
def mapRoomsLoop (rooms : List String) :
    List (String × Value) → Except PyExc (List (String × List String) × List String)
  | [] => .ok ([], [])
  | (roomId, roomInfo) :: rest => do
    let connects ←
      match roomInfo with
      | .dict d => do
        let c := (d.lookup "connects_to").getD (.list [])
        let items ← pyIterList ((d.lookup "interactables").getD (.list []))
        probeInteractables items
        pyIterList c
      | .list l => pure l
      | _ => pure ([] : List Value)
    let tr ← processTargets roomId rooms connects
    let restOut ← mapRoomsLoop rooms rest
    .ok ((roomId, tr.1) :: restOut.1, tr.2 ++ restOut.2)

/-- The bidirectionality pass of `check_map`: one warning for every stored
edge without a return edge, in adjacency order. -/
def bidirAux (full : List (String × List String)) :
    List (String × List String) → List String
  | [] => []
  | (roomId, neighbors) :: rest =>
    (neighbors.filterMap (fun target =>
      if (adjGet full target).contains roomId then Option.none
      else some (oneWayMsg roomId target))) ++ bidirAux full rest

/-- All one-way warnings of an adjacency mapping. -/
def bidirWarnings (adj : List (String × List String)) : List String :=
  bidirAux adj adj

/-- `check_map(data, r)`: room declarations, adjacency, bidirectionality,
connectivity from the first declared room, and the murder location.  `enum`
is the iteration order of the Python set `isolated = rooms - reachable`
(CPython iterates string sets in a hash-dependent order, so it is a
parameter applied to the set's elements in declaration order).  Returns the
`(rooms, adj)` pair and the updated collector. -/
def check_map (data : Value) (enum : List String → List String) (r : Result) :
    Except PyExc (List String × List (String × List String) × Result) := do
  let hasMap ← pyInContainer (.str "map") data
  if !hasMap then
    .ok ([], [], r.err noMapMsg)
  else do
    let mapVal ← pySubscript data "map"
    let entries ← pyItems mapVal
    let rooms := entries.foldl
      (fun acc kv => if acc.contains kv.1 then acc else acc ++ [kv.1]) []
    let la ← mapRoomsLoop rooms entries
    let adj := la.1
    let warns1 := bidirWarnings adj
    let isoWarns :=
      match entries with
      | [] => []   -- `if rooms:` — no declared room, no connectivity pass
      | (start, _) :: _ =>
        let reachable := dfs_reachable start adj
        (enum (rooms.filter (fun x => !reachable.contains x))).map
          (fun roomId => unreachableMsg roomId start)
    let murderLoc ← pyGet data "murderLocation" .none
    let murderErrs ←
      if pyTruthy murderLoc then do
        let mem ← pyStrSetMem murderLoc rooms
        pure (if !mem then [murderLocMsg murderLoc] else [])
      else pure ([] : List String)
    .ok (rooms, adj,
      ⟨r.errors ++ la.2 ++ murderErrs, r.warnings ++ warns1 ++ isoWarns⟩)

/-! ## Suspects & solution checker (`check_suspects_and_solution`) -/

/-- Error for a killer id that resolves to no declared suspect. -/
def killerNotFoundMsg (k : Value) : String :=
  "Solution: Killer '" ++ pyStr k ++ "' not found in suspects list"

/-- Error for an accomplice id that resolves to no declared suspect. -/
def accompliceNotFoundMsg (a : Value) : String :=
  "Solution: Accomplice '" ++ pyStr a ++ "' not found in suspects list"

/-- Error for a silent-witness id that resolves to no declared suspect. -/
def silentWitnessNotFoundMsg (w : Value) : String :=
  "Solution: Silent witness '" ++ pyStr w ++ "' not found in suspects list"

/-- One optional-role check of `check_suspects_and_solution`
(`accomplice` / `silent_witness`): a role id other than the sentinel
`"none"` must resolve among the declared suspect ids. -/
def optionalRoleErrors (x : Value) (suspectIds : List Value) (msg : String) :
    Except PyExc (List String) :=
  if !(pyEq x (.str "none")) then do
    let m ← pySetMem x suspectIds
    pure (if !m then [msg] else [])
  else pure []

/-- The solution-role checks of `check_suspects_and_solution`: each role id
must resolve to a declared suspect id, the sentinel `"none"` exempting the
accomplice and silent-witness roles. -/
def solutionRoleErrors (killer acc sw : Value) (suspectIds : List Value) :
    Except PyExc (List String) := do
  let kMem ← pySetMem killer suspectIds
  let e1 := if !kMem then [killerNotFoundMsg killer] else []
  let e2 ← optionalRoleErrors acc suspectIds (accompliceNotFoundMsg acc)
  let e3 ← optionalRoleErrors sw suspectIds (silentWitnessNotFoundMsg sw)
  .ok (e1 ++ e2 ++ e3)

/-- The shared `f"Suspect '{sid}'..."` opening of the per-suspect messages. -/
def suspectMsg (sid : Value) (suffix : String) : String :=
  "Suspect '" ++ pyStr sid ++ suffix

/-- Error for a `currentLocation` outside the declared rooms. -/
def clNotInMapMsg (sid cl : Value) : String :=
  suspectMsg sid ("': currentLocation '" ++ pyStr cl ++ "' not in map")

/-- Error: the solution killer's `isGuilty` flag is not true. -/
def killerFlagMissingMsg (sid : Value) : String :=
  suspectMsg sid "': is solution killer but isGuilty is not true"

/-- Error: `isGuilty` is true on a suspect who is not the killer. -/
def killerFlagWrongMsg (sid : Value) : String :=
  suspectMsg sid "': isGuilty is true but is not the solution killer"

/-- Error: the solution accomplice's `isAccomplice` flag is not true. -/
def accompliceFlagMissingMsg (sid : Value) : String :=
  suspectMsg sid "': is solution accomplice but isAccomplice is not true"

/-- Error: `isAccomplice` is true on a suspect who is not the accomplice. -/
def accompliceFlagWrongMsg (sid : Value) : String :=
  suspectMsg sid "': isAccomplice is true but is not the solution accomplice"

/-- Error: the solution silent witness's `isSilentWitness` flag is not true. -/
def witnessFlagMissingMsg (sid : Value) : String :=
  suspectMsg sid "': is solution silent_witness but isSilentWitness is not true"

/-- Error: `isSilentWitness` is true on a suspect who is not the witness. -/
def witnessFlagWrongMsg (sid : Value) : String :=
  suspectMsg sid "': isSilentWitness is true but is not the solution silent_witness"

/-- Warning for a suspect without an alibi. -/
def missingAlibiMsg (sid : Value) : String :=
  suspectMsg sid "': Missing alibi field"

/-- Warning for a suspect without secrets. -/
def noSecretsMsg (sid : Value) : String :=
  suspectMsg sid "': Has no secrets defined — may be a dead end for players"

/-- Warning for an unrecognised `resistance_level`. -/
def badResistanceMsg (sid rl : Value) : String :=
  suspectMsg sid ("': Unrecognised resistance_level '" ++ pyStr rl ++
    "' (expected: low/moderate/high/expert)")

/-- The `currentLocation` check of the per-suspect loop: a truthy location
must resolve to a declared room. -/
def clErrsOf (rooms : List String) (sid cl : Value) :
    Except PyExc (List String) :=
  if pyTruthy cl then do
    let mem ← pyStrSetMem cl rooms
    pure (if !mem then [clNotInMapMsg sid cl] else [])
  else pure []

/-- The body of the per-suspect loop of `check_suspects_and_solution`:
location resolution, the three role-flag coherence checks, and the alibi /
secrets / resistance warnings. -/
def suspectLoopBody (rooms : List String) (killer acc sw : Value)
    (suspect : Value) : Except PyExc Result := do
  let sid ← pySubscript suspect "id"
  let cl ← pyGet suspect "currentLocation" .none
  let clErrs ← clErrsOf rooms sid cl
  let isG ← pyGet suspect "isGuilty" .none
  let killerErrs :=
    if pyEq sid killer then
      if !(pyTruthy isG) then [killerFlagMissingMsg sid] else []
    else if pyTruthy isG then [killerFlagWrongMsg sid] else []
  let isA ← pyGet suspect "isAccomplice" .none
  let accErrs :=
    if pyEq sid acc then
      if !(pyTruthy isA) then [accompliceFlagMissingMsg sid] else []
    else if pyTruthy isA then [accompliceFlagWrongMsg sid] else []
  let isW ← pyGet suspect "isSilentWitness" .none
  let swErrs :=
    if pyEq sid sw then
      if !(pyTruthy isW) then [witnessFlagMissingMsg sid] else []
    else if pyTruthy isW then [witnessFlagWrongMsg sid] else []
  let alibi ← pyGet suspect "alibi" .none
  let w1 := if !(pyTruthy alibi) then [missingAlibiMsg sid] else []
  let secrets ← pyGet suspect "secrets" .none
  let w2 := if !(pyTruthy secrets) then [noSecretsMsg sid] else []
  let rl ← pyGet suspect "resistance_level" .none
  let w3 :=
    if pyTruthy rl &&
        !(pyListMem rl [.str "low", .str "moderate", .str "high", .str "expert"]) then
      [badResistanceMsg sid rl]
    else []
  .ok ⟨clErrs ++ killerErrs ++ accErrs ++ swErrs, w1 ++ w2 ++ w3⟩

/-- `check_suspects_and_solution(data, rooms, r)`: role ids from the solution
(bare id or structured object), role resolution against the declared suspect
ids, and the per-suspect loop.  Returns `(suspect_ids, killer_id,
accomplice_id, silent_witness_id)` and the updated collector; `suspect_ids`
is the Python set in insertion order, used downstream only through
membership. -/
def check_suspects_and_solution (data : Value) (rooms : List String)
    (r : Result) :
    Except PyExc (List Value × Value × Value × Value × Result) := do
  let suspectsVal ← pyGet data "suspects" (.list [])
  let suspects ← pyIterList suspectsVal
  let ids ← suspects.mapM (fun s => pySubscript s "id")
  let suspectIds ← pySetAddAll [] ids
  let solution ← pyGet data "solution" (.dict [])
  let killer :=
    match solution with
    | .dict d => (d.lookup "killer").getD .none
    | v => v
  let acc :=
    match solution with
    | .dict d => (d.lookup "accomplice").getD (.str "none")
    | _ => .str "none"
  let sw :=
    match solution with
    | .dict d => (d.lookup "silent_witness").getD (.str "none")
    | _ => .str "none"
  let roleErrs ← solutionRoleErrors killer acc sw suspectIds
  let bodyRes ← suspects.foldlM (fun (acc0 : Result) s => do
      let b ← suspectLoopBody rooms killer acc sw s
      pure (acc0.append b)) ⟨[], []⟩
  .ok (suspectIds, killer, acc, sw,
    ⟨r.errors ++ roleErrs ++ bodyRes.errors, r.warnings ++ bodyRes.warnings⟩)

/-! ## Secret trigger checker (`check_secret_triggers`) -/

/-- Python dict assignment `d[k] = v` for a value-keyed mapping: overwrite an
equal key in place or append a new entry. -/
def pyUpsert {β : Type} (d : List (Value × β)) (k : Value) (v : β) :
    List (Value × β) :=
  match d with
  | [] => [(k, v)]
  | (k2, v2) :: rest =>
    if pyEq k k2 then (k2, v) :: rest
    else (k2, v2) :: pyUpsert rest k v

/-- Lookup by Python key equality in a value-keyed mapping. -/
def pyAssocGet {β : Type} (d : List (Value × β)) (k : Value) : Option β :=
  match d with
  | [] => Option.none
  | (k2, v2) :: rest => if pyEq k k2 then some v2 else pyAssocGet rest k

/-- `d.get(k, dflt)` for a value-keyed mapping (`TypeError` on an unhashable
key). -/
def pyAssocGetD {β : Type} (d : List (Value × β)) (k : Value) (dflt : β) :
    Except PyExc β :=
  if pyHashable k then .ok ((pyAssocGet d k).getD dflt) else .error .typeError

/-- `collect_all_secret_ids(data)`: suspect id ↦ that suspect's set of secret
ids; a later duplicate suspect id overwrites an earlier entry as Python dict
assignment does. -/
def collect_all_secret_ids (data : Value) :
    Except PyExc (List (Value × List Value)) := do
  let suspects ← pyIterList (← pyGet data "suspects" (.list []))
  suspects.foldlM (fun acc s => do
    let secretsV ← pyGet s "secrets" (.list [])
    let secrets ← pyIterList secretsV
    let ids ← secrets.mapM (fun sec => pySubscript sec "id")
    let idSet ← pySetAddAll [] ids
    let sid ← pySubscript s "id"
    if pyHashable sid then pure (pyUpsert acc sid idSet)
    else .error .typeError) []

/-- The shared `f"Suspect '{sid}' secret '{sec_id}'..."` opening of the
per-secret messages. -/
def secretMsg (sid sec : Value) (suffix : String) : String :=
  "Suspect '" ++ pyStr sid ++ "' secret '" ++ pyStr sec ++ suffix

/-- Error for dot-notation inside `requiresEvidence`. -/
def dotNotationMsg (sid sec req : Value) : String :=
  secretMsg sid sec ("': requiresEvidence uses dot-notation '" ++ pyStr req ++
    "' — use requiresSecrets for secret cross-references")

/-- Error for a `requiresEvidence` id outside the flat reference set. -/
def undeclaredEvidenceMsg (sid sec req : Value) : String :=
  secretMsg sid sec ("': requiresEvidence references undeclared ID '" ++
    pyStr req ++ "'")

/-- Error for a `requiresSecrets` id no suspect declares. -/
def unknownSecretMsg (sid sec req : Value) : String :=
  secretMsg sid sec ("': requiresSecrets references unknown secret ID '" ++
    pyStr req ++ "'")

/-- Error for a secret requiring itself. -/
def selfRefMsg (sid sec : Value) : String :=
  secretMsg sid sec "': requiresSecrets references itself — circular dependency"

/-- Error for a non-numeric `minPressure`. -/
def minPressureTypeMsg (sid sec mp : Value) : String :=
  secretMsg sid sec ("': minPressure must be a number, got '" ++ pyStr mp ++ "'")

/-- Warning for a `minPressure` above 80. -/
def minPressureHighMsg (sid sec mp : Value) : String :=
  secretMsg sid sec ("': minPressure=" ++ pyStr mp ++
    " is very high — may be unreachable within point budget")

/-- Warning for a dependent secret whose pressure is not above its
prerequisite's. -/
def pressureOrderMsg (sid sec smp req rmp : Value) : String :=
  secretMsg sid sec ("' (minPressure=" ++ pyStr smp ++ ") requires secret '" ++
    pyStr req ++ "' (minPressure=" ++ pyStr rmp ++
    ") but has equal or lower pressure — '" ++ pyStr req ++
    "' may never unlock first")

/-- `isinstance(x, (int, float))`; Python booleans are ints. -/
def pyIsNum : Value → Bool
  | .int _ => true
  | .bool _ => true
  | _ => false

/-- The numeric value of a `pyIsNum` value. -/
def pyNumVal : Value → Int
  | .int n => n
  | .bool b => if b then 1 else 0
  | _ => 0

/-- Python `<=` as used on trigger pressures: numeric between numbers,
lexicographic between strings, `TypeError` otherwise. -/
def pyLe (a b : Value) : Except PyExc Bool :=
  if pyIsNum a && pyIsNum b then .ok (decide (pyNumVal a ≤ pyNumVal b))
  else
    match a, b with
    | .str x, .str y => .ok (decide (x ≤ y))
    | _, _ => .error .typeError

/-- One `requiresEvidence` entry of a secret's trigger: dot-notation is an
error, otherwise the id must be in the flat reference set. -/
def reqEvidenceOne (sid sec : Value) (validFlat : List String) (req : Value) :
    Except PyExc (List String) := do
  let hasDot ← pyInContainer (.str ".") req
  if hasDot then pure [dotNotationMsg sid sec req]
  else do
    let mem ← pyStrSetMem req validFlat
    pure (if !mem then [undeclaredEvidenceMsg sid sec req] else [])

/-- The `requiresEvidence` loop of one secret's trigger. -/
def reqEvidenceErrors (sid sec : Value) (validFlat : List String) :
    List Value → Except PyExc (List String)
  | [] => .ok []
  | req :: rest => do
    let head ← reqEvidenceOne sid sec validFlat req
    let tail ← reqEvidenceErrors sid sec validFlat rest
    .ok (head ++ tail)

/-- The `requiresSecrets` loop of one secret's trigger: each entry must be a
declared secret id. -/
def reqSecretsErrors (sid sec : Value) (allSecretFlat : List Value) :
    List Value → Except PyExc (List String)
  | [] => .ok []
  | req :: rest => do
    let mem ← pySetMem req allSecretFlat
    let tail ← reqSecretsErrors sid sec allSecretFlat rest
    .ok ((if !mem then [unknownSecretMsg sid sec req] else []) ++ tail)

/-- The per-secret body of `check_secret_triggers`: `requiresEvidence`
resolution, `requiresSecrets` resolution, the self-reference check, and the
`minPressure` type and magnitude checks. -/
def secretTriggerBody (sid : Value) (validFlat : List String)
    (allSecretFlat : List Value) (secret : Value) : Except PyExc Result := do
  let sec ← pySubscript secret "id"
  let trigger ← pyGet secret "trigger" (.dict [])
  let reqEv ← pyIterList (← pyGet trigger "requiresEvidence" (.list []))
  let e1 ← reqEvidenceErrors sid sec validFlat reqEv
  let reqSec ← pyIterList (← pyGet trigger "requiresSecrets" (.list []))
  let e2 ← reqSecretsErrors sid sec allSecretFlat reqSec
  let selfRef ← pyInContainer sec (← pyGet trigger "requiresSecrets" (.list []))
  let e3 := if selfRef then [selfRefMsg sid sec] else []
  let mp ← pyGet trigger "minPressure" .none
  let e4 :=
    if !(pyEq mp .none) && !(pyIsNum mp) then [minPressureTypeMsg sid sec mp]
    else []
  let w1 :=
    if pyIsNum mp && decide ((80 : Int) < pyNumVal mp) then
      [minPressureHighMsg sid sec mp]
    else []
  .ok ⟨e1 ++ e2 ++ e3 ++ e4, w1⟩

/-- `check_secret_triggers(data, rooms, r)`: the flat reference universe,
the per-secret trigger checks, and the pressure-ordering pass. -/
def check_secret_triggers (data : Value) (rooms : List String) (r : Result) :
    Except PyExc Result := do
  let evidence ← pyGet data "evidence" (.dict [])
  let physEntries ← pyItems (← pyGet evidence "physical_evidence" (.dict []))
  let digitalEntries ← pyItems (← pyGet evidence "digital_logs" (.dict []))
  let footageEntries ← pyItems (← pyGet evidence "footage" (.dict []))
  let validFlat := physEntries.map Prod.fst ++ digitalEntries.map Prod.fst ++
    footageEntries.map Prod.fst ++ rooms
  let allSecretIds ← collect_all_secret_ids data
  let allSecretFlat := (allSecretIds.map Prod.snd).flatten
  let suspects ← pyIterList (← pyGet data "suspects" (.list []))
  let r1 ← suspects.foldlM (fun (acc : Result) s => do
    let sid ← pySubscript s "id"
    let _ ← pyAssocGetD allSecretIds sid ([] : List Value)
    let secrets ← pyIterList (← pyGet s "secrets" (.list []))
    secrets.foldlM (fun (acc2 : Result) sec => do
      let b ← secretTriggerBody sid validFlat allSecretFlat sec
      pure (acc2.append b)) acc) ⟨[], []⟩
  let r2 ← suspects.foldlM (fun (acc : Result) s => do
    let sid ← pySubscript s "id"
    let secrets ← pyIterList (← pyGet s "secrets" (.list []))
    let pressures ← secrets.foldlM (fun (d : List (Value × Value)) sec => do
      let trigger ← pyGet sec "trigger" (.dict [])
      let mp ← pyGet trigger "minPressure" (.int 0)
      let secId ← pySubscript sec "id"
      if pyHashable secId then pure (pyUpsert d secId mp)
      else .error .typeError) []
    let warns ← secrets.foldlM (fun (ws : List String) sec => do
      let secId ← pySubscript sec "id"
      let secMp ← pyAssocGetD pressures secId (.int 0)
      let trigger ← pyGet sec "trigger" (.dict [])
      let reqs ← pyIterList (← pyGet trigger "requiresSecrets" (.list []))
      reqs.foldlM (fun (ws2 : List String) req => do
        if pyHashable req then
          match pyAssocGet pressures req with
          | Option.none => pure ws2
          | some reqMp => do
            let le ← pyLe secMp reqMp
            pure (if le then ws2 ++ [pressureOrderMsg sid secId secMp req reqMp]
              else ws2)
        else .error .typeError) ws) []
    pure (acc.append ⟨[], warns⟩)) ⟨[], []⟩
  .ok ⟨r.errors ++ r1.errors ++ r2.errors, r.warnings ++ r1.warnings ++ r2.warnings⟩

/-! ## Evidence & reference checker (`check_evidence_ids`) -/

/-- Error for a `physical_discovery` room that is not declared. -/
def discRoomMsg (room : String) : String :=
  "Evidence: physical_discovery references non-existent room '" ++ room ++ "'"

/-- Error for a non-list `physical_discovery` entry. -/
def discTypeMsg (room : String) (v : Value) : String :=
  "Evidence: physical_discovery['" ++ room ++ "'] must be a list, got " ++
    pyTypeName v

/-- Error for an undeclared evidence id placed in a discovery room. -/
def discUndeclaredMsg (room : String) (ev : Value) : String :=
  "Evidence: physical_discovery room '" ++ room ++
    "' references undeclared evidence '" ++ pyStr ev ++ "'"

/-- Error for an interactable whose `evidence_id` is undeclared. -/
def interactableMsg (nm : Value) (room : String) (eid : Value) : String :=
  "Map: Interactable '" ++ pyStr nm ++ "' in '" ++ room ++
    "' has evidence_id '" ++ pyStr eid ++ "' not in physical_evidence"

/-- Warning for a declared evidence id no discovery room lists. -/
def undiscoverableMsg (ev : String) : String :=
  "Evidence: '" ++ ev ++
    "' is declared in physical_evidence but not listed in any physical_discovery room — players can never find it"

/-- Error for a `key_evidence` id outside `physical_evidence`. -/
def keyEvidenceMsg (ev : Value) : String :=
  "Solution: key_evidence '" ++ pyStr ev ++ "' not declared in physical_evidence"

/-- Error for an `all_locations` entry that is not a declared room. -/
def allLocationsMsg (loc : Value) : String :=
  "Evidence: all_locations contains non-existent room '" ++ pyStr loc ++ "'"

/-- Error for a DNA room that is not declared. -/
def dnaRoomMsg (room : String) : String :=
  "DNA: References non-existent room '" ++ room ++ "'"

/-- Error for a non-list DNA entry. -/
def dnaTypeMsg (room : String) (v : Value) : String :=
  "DNA: Entry for room '" ++ room ++ "' must be a list (got " ++ pyTypeName v ++
    ") — did you add a '_note' key inside the dna block by mistake?"

/-- Warning for an unknown DNA profile name. -/
def dnaUnknownMsg (nm : Value) (room : String) : String :=
  "DNA: Unknown profile '" ++ pyStr nm ++ "' in room '" ++ room ++ "'"

/-- Warning when the killer left no DNA at the murder location. -/
def killerDnaMsg (killer murder : Value) : String :=
  "Evidence: Killer '" ++ pyStr killer ++ "' has no DNA at murder location '" ++
    pyStr murder ++ "' — may be intentional (gloves etc.) but worth confirming"

/-- The `physical_discovery` loop: room resolution, list typing (a non-list
entry skips its per-id loop), and per-id declaration. -/
def discoveryLoop (rooms physIds : List String) :
    List (String × Value) → Except PyExc (List String)
  | [] => .ok []
  | (roomId, evList) :: rest => do
    let e1 := if !rooms.contains roomId then [discRoomMsg roomId] else []
    let e2 ←
      match evList with
      | .list l =>
        l.foldlM (fun (acc : List String) ev => do
          let mem ← pyStrSetMem ev physIds
          pure (acc ++ (if !mem then [discUndeclaredMsg roomId ev] else []))) []
      | v => pure [discTypeMsg roomId v]
    let tail ← discoveryLoop rooms physIds rest
    .ok (e1 ++ e2 ++ tail)

/-- The interactable cross-reference loop over the map. -/
def interactablesLoop (physIds : List String) :
    List (String × Value) → Except PyExc (List String)
  | [] => .ok []
  | (roomId, roomInfo) :: rest => do
    let here ←
      match roomInfo with
      | .dict d => do
        let items ← pyIterList ((d.lookup "interactables").getD (.list []))
        items.foldlM (fun (acc : List String) item => do
          let eid ← pyGet item "evidence_id" .none
          if pyTruthy eid then do
            let mem ← pyStrSetMem eid physIds
            if !mem then do
              let nm ← pyGet item "name" .none
              pure (acc ++ [interactableMsg nm roomId eid])
            else pure acc
          else pure acc) []
      | _ => pure ([] : List String)
    let tail ← interactablesLoop physIds rest
    .ok (here ++ tail)

/-- The discoverable-evidence set: the union of all list-typed
`physical_discovery` values. -/
def discoverableSet (entries : List (String × Value)) :
    Except PyExc (List Value) :=
  entries.foldlM (fun acc kv =>
    match kv.2 with
    | .list l => pySetAddAll acc l
    | _ => .ok acc) []

/-- `s.split()`: whitespace-separated tokens, no empty tokens. -/
def splitWsAux (cur : List Char) (acc : List (List Char)) :
    List Char → List (List Char)
  | [] => if cur.isEmpty then acc else acc ++ [cur]
  | c :: rest =>
    if isPySpace c then
      if cur.isEmpty then splitWsAux [] acc rest
      else splitWsAux [] (acc ++ [cur]) rest
    else splitWsAux (cur ++ [c]) acc rest

/-- `s.split()` on a string. -/
def pySplitWs (s : String) : List String :=
  (splitWsAux [] [] s.data).map String.mk

/-- The DNA loop: room resolution, list typing (a non-list entry skips its
name loop), and profile resolution against the known identities. -/
def dnaLoop (rooms : List String) (knownProfiles : List Value) :
    List (String × Value) → Except PyExc (List String × List String)
  | [] => .ok ([], [])
  | (roomId, names) :: rest => do
    let e1 := if !rooms.contains roomId then [dnaRoomMsg roomId] else []
    let ew ←
      match names with
      | .list l => do
        let ws ← l.foldlM (fun (acc : List String) nm => do
          let mem ← pySetMem nm knownProfiles
          pure (acc ++ (if !mem then [dnaUnknownMsg nm roomId] else []))) []
        pure (([] : List String), ws)
      | v => pure ([dnaTypeMsg roomId v], ([] : List String))
    let tail ← dnaLoop rooms knownProfiles rest
    .ok (e1 ++ ew.1 ++ tail.1, ew.2 ++ tail.2)

/-- The sequential state of `check_evidence_ids` before the final message
assembly: all errors in source order, the canonical element list of the
set-iteration-ordered undiscoverability warning block, and the remaining
warning blocks. -/
structure EvidenceCore where
  errs : List String
  physKeys : List String
  discoverable : List Value
  dnaWarns : List String
  killerWarn : List String

/-- The body of `check_evidence_ids` apart from applying the set iteration
order to the undiscoverability block.  Deferring that block is unobservable:
iterating the `phys_ev_ids` set cannot raise, and the block's position among
the warnings is restored by the caller. -/
def evidenceCore (data : Value) (rooms : List String) (suspectIds : List Value)
    (killerId : Value) : Except PyExc EvidenceCore := do
  let evidence ← pyGet data "evidence" (.dict [])
  let physEntries ← pyItems (← pyGet evidence "physical_evidence" (.dict []))
  let physIds := physEntries.map Prod.fst
  let solution ← pyGet data "solution" (.dict [])
  let discEntries ← pyItems (← pyGet evidence "physical_discovery" (.dict []))
  let e1 ← discoveryLoop rooms physIds discEntries
  let mapEntries ← pyItems (← pyGet data "map" (.dict []))
  let e2 ← interactablesLoop physIds mapEntries
  let disc ← discoverableSet discEntries
  let keyEvErrs ←
    match solution with
    | .dict d => do
      let kl ← pyIterList ((d.lookup "key_evidence").getD (.list []))
      kl.foldlM (fun (acc : List String) ev => do
        let mem ← pyStrSetMem ev physIds
        pure (acc ++ (if !mem then [keyEvidenceMsg ev] else []))) []
    | _ => pure ([] : List String)
  let allLoc ← pyIterList (← pyGet evidence "all_locations" (.list []))
  let allLocErrs ← allLoc.foldlM (fun (acc : List String) loc => do
    let mem ← pyStrSetMem loc rooms
    pure (acc ++ (if !mem then [allLocationsMsg loc] else []))) []
  let victimData ← pyGet data "victim" (.dict [])
  let victimId ← pyLower (← pyGet victimData "id" (.str ""))
  let victimNameStr ←
    match ← pyGet victimData "name" (.str "") with
    | .str s => .ok s
    | _ => .error .attributeError   -- `.split()` is a string method
  let victimName ←
    match pySplitWs victimNameStr with
    | [] => .error .indexError      -- `''.split()[0]`: index out of range
    | t :: _ => .ok (String.mk (t.data.map Char.toLower))
  -- `suspect_ids | {'victim', victim_id, victim_name} - {''}`: the set
  -- difference binds tighter than the union, so `''` is removed only from
  -- the literal set.
  let knownProfiles := suspectIds ++
    ([Value.str "victim", Value.str victimId, Value.str victimName].filter
      (fun v => !(pyEq v (.str ""))))
  let dnaEntries ← pyItems (← pyGet evidence "dna" (.dict []))
  let dnaRes ← dnaLoop rooms knownProfiles dnaEntries
  let murderLoc ← pyGet data "murderLocation" .none
  let w3 ←
    if pyTruthy murderLoc && pyTruthy killerId then do
      let killerRooms := dnaEntries.filterMap (fun kv =>
        match kv.2 with
        | .list l => if pyListMem killerId l then some kv.1 else Option.none
        | _ => Option.none)
      pure (if !(killerRooms.any (fun room => pyEq murderLoc (.str room))) then
        [killerDnaMsg killerId murderLoc] else [])
    else pure ([] : List String)
  .ok ⟨e1 ++ e2 ++ keyEvErrs ++ allLocErrs ++ dnaRes.1,
    physIds, disc, dnaRes.2, w3⟩

/-- `check_evidence_ids(data, rooms, suspect_ids, killer_id, r)`.  `enum` is
the iteration order of the Python set `phys_ev_ids` in the undiscoverability
warning loop (a hash-dependent order, hence a parameter applied to the keys
in declaration order). -/
def check_evidence_ids (data : Value) (rooms : List String)
    (suspectIds : List Value) (killerId : Value)
    (enum : List String → List String) (r : Result) : Except PyExc Result := do
  let c ← evidenceCore data rooms suspectIds killerId
  let undisc := (enum c.physKeys).filterMap (fun ev =>
    if c.discoverable.any (fun w => pyEq (.str ev) w) then Option.none
    else some (undiscoverableMsg ev))
  .ok ⟨r.errors ++ c.errs, r.warnings ++ undisc ++ c.dnaWarns ++ c.killerWarn⟩

/-! ## Schema checker (`check_schema`) -/

/-- Error for a missing required top-level field. -/
def schemaMissingMsg (f : String) : String :=
  "Schema: Missing required top-level field '" ++ f ++ "'"

/-- Warning for a missing recommended victim field. -/
def victimMissingMsg (f : String) : String :=
  "Schema: Victim missing recommended field '" ++ f ++ "'"

/-- Warning for a missing `point_system` field. -/
def pointSystemMsg (f : String) : String :=
  "Schema: point_system missing field '" ++ f ++ "'"

/-- `check_schema(data, r)`: required top-level keys and the victim /
point-system recommendations. -/
def check_schema (data : Value) (r : Result) : Except PyExc Result := do
  let required := ["id", "name", "description", "victim", "murderTime",
    "murderLocation", "evidence", "solution", "suspects", "settings"]
  let e1 ← required.foldlM (fun (acc : List String) f => do
    let mem ← pyInContainer (.str f) data
    pure (acc ++ (if !mem then [schemaMissingMsg f] else []))) []
  let hasVictim ← pyInContainer (.str "victim") data
  let w1 ←
    if hasVictim then do
      let v ← pySubscript data "victim"
      ["name", "id", "avatar"].foldlM (fun (acc : List String) vf => do
        let mem ← pyInContainer (.str vf) v
        pure (acc ++ (if !mem then [victimMissingMsg vf] else []))) []
    else pure ([] : List String)
  let hasPS ← pyInContainer (.str "point_system") data
  let w2 ←
    if hasPS then do
      let ps ← pySubscript data "point_system"
      ["question_cost", "search_cost", "correct_deduction_reward",
        "key_evidence_reward"].foldlM (fun (acc : List String) pf => do
        let mem ← pyInContainer (.str pf) ps
        pure (acc ++ (if !mem then [pointSystemMsg pf] else []))) []
    else pure ([] : List String)
  .ok ⟨r.errors ++ e1, r.warnings ++ w1 ++ w2⟩

/-! ## Asset existence checker (`check_assets`) -/

/-- Error for a missing asset file. -/
def assetMsg (context assetPath fullPath : String) : String :=
  "Resource: " ++ context ++ " '" ++ assetPath ++ "' not found at " ++ fullPath

/-- `check_asset(asset_path, context)`: resolve a declared path under the
static root and probe the filesystem collaborator `fsExists`; a falsy
declaration is skipped, a truthy non-string has no `.lstrip`. -/
def checkAsset (projectRoot : String) (fsExists : String → Bool)
    (assetPath : Value) (context : String) : Except PyExc (List String) :=
  if !pyTruthy assetPath then .ok []
  else
    match assetPath with
    | .str s =>
      let rel := String.mk (s.data.dropWhile (fun c => c = '/'))
      let full := projectRoot ++ "/public/" ++ rel
      .ok (if !fsExists full then [assetMsg context s full] else [])
    | _ => .error .attributeError

/-- `check_assets(data, project_root, r)` over the filesystem collaborator
`fsExists`. -/
def check_assets (data : Value) (projectRoot : String)
    (fsExists : String → Bool) (r : Result) : Except PyExc Result := do
  let vAvatar ← pyGet (← pyGet data "victim" (.dict [])) "avatar" .none
  let e1 ← checkAsset projectRoot fsExists vAvatar "Victim avatar"
  let suspects ← pyIterList (← pyGet data "suspects" (.list []))
  let e2 ← suspects.foldlM (fun (acc : List String) s => do
    let av ← pyGet s "avatar" .none
    let sid ← pySubscript s "id"
    let es ← checkAsset projectRoot fsExists av
      ("Suspect '" ++ pyStr sid ++ "' avatar")
    pure (acc ++ es)) []
  let mapEntries ← pyItems (← pyGet data "map" (.dict []))
  let e3 ← mapEntries.foldlM (fun (acc : List String) kv => do
    match kv.2 with
    | .dict d =>
      match d.lookup "image" with
      | some img => do
        let es ← checkAsset projectRoot fsExists img
          ("Room '" ++ kv.1 ++ "' image")
        pure (acc ++ es)
      | Option.none => pure acc
    | _ => pure acc) []
  .ok ⟨r.errors ++ e1 ++ e2 ++ e3, r.warnings⟩

/-! ## Narrative coherence checker (`check_narrative_consistency`) -/

/-- `json.dumps` of a parsed value (default separators; string escaping is
not modelled — no claim depends on escaped output). -/
def jsonDumps : Value → String
  | .none => "null"
  | .bool b => if b then "true" else "false"
  | .int n => toString n
  | .str s => "\"" ++ s ++ "\""
  | .list l => "[" ++ String.intercalate ", " (goList l) ++ "]"
  | .dict d => "\x7b" ++ String.intercalate ", " (goEntries d) ++ "\x7d"
where
  /-- `json.dumps` of each element of a sequence. -/
  goList : List Value → List String
    | [] => []
    | v :: vs => jsonDumps v :: goList vs
  /-- `json.dumps` of each entry of a mapping. -/
  goEntries : List (String × Value) → List String
    | [] => []
    | (k, v) :: es => ("\"" ++ k ++ "\": " ++ jsonDumps v) :: goEntries es

/-- Warning for a `key_evidence` id no secret trigger requires. -/
def keyEvUnusedMsg (ev : Value) : String :=
  "Narrative: key_evidence '" ++ pyStr ev ++
    "' is never required by any suspect secret trigger — it may have no mechanical effect"

/-- Warning when no killer secret is triggered by murder-scene evidence. -/
def killerNoMurderEvMsg (killer : Value) : String :=
  "Narrative: Killer '" ++ pyStr killer ++
    "' has no secret triggered by murder scene evidence — the smoking gun may not connect to them mechanically"

/-- Warning when the killer has no confession-style secret. -/
def killerNoConfessionMsg (killer : Value) : String :=
  "Narrative: Killer '" ++ pyStr killer ++
    "' has no confession/terminal secret — player may have no satisfying climax moment"

/-- Warning for a suspect without an initial police statement. -/
def noStatementMsg (sid : Value) : String :=
  "Narrative: Suspect '" ++ pyStr sid ++ "' has no initial police statement"

/-- Warning when the win conditions never mention the killer. -/
def winCondMsg (killer : Value) : String :=
  "Narrative: win_conditions text doesn't mention killer '" ++ pyStr killer ++
    "' — may be vague"

/-- The union of every secret trigger's `requiresEvidence` entries. -/
def allRequiredEvidence (suspects : List Value) : Except PyExc (List Value) :=
  suspects.foldlM (fun acc s => do
    let secrets ← pyIterList (← pyGet s "secrets" (.list []))
    secrets.foldlM (fun acc2 sec => do
      let trig ← pyGet sec "trigger" (.dict [])
      let reqs ← pyIterList (← pyGet trig "requiresEvidence" (.list []))
      pySetAddAll acc2 reqs) acc) []

/-- Check #18: every `key_evidence` id should be required somewhere. -/
def narrKeyEvidence (sol : List (String × Value)) (allReq : List Value) :
    Except PyExc (List String) := do
  let kl ← pyIterList ((sol.lookup "key_evidence").getD (.list []))
  kl.foldlM (fun (acc : List String) ev => do
    let mem ← pySetMem ev allReq
    pure (acc ++ (if !mem then [keyEvUnusedMsg ev] else []))) []

/-- `.get(k, dflt)` on a string-keyed mapping value with an arbitrary key
(`TypeError` on an unhashable key; a hashable non-string key is absent). -/
def pyGetVK (v : Value) (k : Value) (dflt : Value) : Except PyExc Value :=
  match v with
  | .dict d =>
    if pyHashable k then
      match k with
      | .str s => .ok ((d.lookup s).getD dflt)
      | _ => .ok dflt
    else .error .typeError
  | _ => .error .attributeError

/-- The inner generator of check #19: does any trigger of these secrets
require one of the murder-scene evidence ids (left-to-right, stopping at the
first hit, as `any` over a generator does)? -/
def anyReqInSet (murderEv : List Value) : List Value → Except PyExc Bool
  | [] => .ok false
  | s :: rest => do
    let trig ← pyGet s "trigger" (.dict [])
    let reqs ← pyIterList (← pyGet trig "requiresEvidence" (.list []))
    let here ← reqs.foldlM (fun (b : Bool) ev => do
      if b then pure true
      else do
        let mem ← pySetMem ev murderEv
        pure mem) false
    if here then .ok true else anyReqInSet murderEv rest

/-- Check #19: with a known killer and murder location, some killer secret
should be triggered by evidence discoverable at the murder location. -/
def narrMurderEvidence (data : Value) (killerId : Value)
    (suspectsById : List (Value × Value)) (evidence : Value) :
    Except PyExc (List String) := do
  let murderLoc ← pyGet data "murderLocation" .none
  if pyTruthy killerId && pyTruthy murderLoc then do
    let mem ←
      if pyHashable killerId then
        .ok (suspectsById.any (fun kv => pyEq killerId kv.1))
      else .error .typeError
    if mem then do
      let killerS ←
        match pyAssocGet suspectsById killerId with
        | some sVal => .ok sVal
        | Option.none => .error .keyError
      let killerSecrets ← pyIterList (← pyGet killerS "secrets" (.list []))
      let physDisc ← pyGet evidence "physical_discovery" (.dict [])
      let murderEvRaw ← pyGetVK physDisc murderLoc (.list [])
      let murderEvList ← pyIterList murderEvRaw
      let murderEv ← pySetAddAll [] murderEvList
      let kr ← anyReqInSet murderEv killerSecrets
      pure (if !kr && !murderEv.isEmpty then [killerNoMurderEvMsg killerId]
        else [])
    else pure []
  else pure []

/-- The terminal-secret generator of check #20 (`or` and `any` both
short-circuit). -/
def hasTerminalSecret : List Value → Except PyExc Bool
  | [] => .ok false
  | s :: rest => do
    let sid ← pySubscript s "id"
    let sidL ← pyLower sid
    if pyInStr "confession" sidL then .ok true
    else do
      let txtL ← pyLower (← pyGet s "text" (.str ""))
      if pyInStr "confess" txtL then .ok true
      else hasTerminalSecret rest

/-- Check #20: the killer should have a confession-style secret. -/
def narrConfession (killerId : Value) (suspectsById : List (Value × Value)) :
    Except PyExc (List String) := do
  if pyTruthy killerId then do
    let mem ←
      if pyHashable killerId then
        .ok (suspectsById.any (fun kv => pyEq killerId kv.1))
      else .error .typeError
    if mem then do
      let killerS ←
        match pyAssocGet suspectsById killerId with
        | some sVal => .ok sVal
        | Option.none => .error .keyError
      let killerSecrets ← pyIterList (← pyGet killerS "secrets" (.list []))
      let ht ← hasTerminalSecret killerSecrets
      pure (if !ht then [killerNoConfessionMsg killerId] else [])
    else pure []
  else pure []

/-- Check #21: every suspect should have an initial police statement. -/
def narrStatements (statements : Value) (suspects : List Value) :
    Except PyExc (List String) :=
  suspects.foldlM (fun (acc : List String) s => do
    let sid ← pySubscript s "id"
    let mem ← pyInContainer sid statements
    pure (acc ++ (if !mem then [noStatementMsg sid] else []))) []

/-- Check #22: the flattened win-conditions text should mention the killer's
id or name (case-insensitive substring). -/
def narrWinConditions (data : Value) (killerId : Value)
    (suspectsById : List (Value × Value)) : Except PyExc (List String) := do
  let wc ← pyGet data "win_conditions" (.dict [])
  if pyTruthy wc && pyTruthy killerId then do
    let wcText := String.mk ((jsonDumps wc).data.map Char.toLower)
    let killerSVal ←
      if pyHashable killerId then
        .ok ((pyAssocGet suspectsById killerId).getD (.dict []))
      else .error .typeError
    let killerName ← pyLower (← pyGet killerSVal "name" (.str ""))
    let killerIdL ← pyLower killerId
    if !(pyInStr killerIdL wcText) && !(pyInStr killerName wcText) then
      pure [winCondMsg killerId]
    else pure []
  else pure []

/-- `check_narrative_consistency(data, r)`: the five narrative heuristics
over the normalised solution mapping and the suspects-by-id mapping. -/
def check_narrative_consistency (data : Value) (r : Result) :
    Except PyExc Result := do
  let sol0 ← pyGet data "solution" .none
  let solDict :=
    match sol0 with
    | .dict d => d
    | _ => []
  let killerId := (solDict.lookup "killer").getD .none
  let suspects ← pyIterList (← pyGet data "suspects" (.list []))
  let suspectsById ← suspects.foldlM (fun (d : List (Value × Value)) s => do
    let sid ← pySubscript s "id"
    if pyHashable sid then pure (pyUpsert d sid s) else .error .typeError) []
  let evidence ← pyGet data "evidence" (.dict [])
  let _ ← pyItems (← pyGet evidence "physical_evidence" (.dict []))
  let allReq ← allRequiredEvidence suspects
  let w18 ← narrKeyEvidence solDict allReq
  let w19 ← narrMurderEvidence data killerId suspectsById evidence
  let w20 ← narrConfession killerId suspectsById
  let statements ← pyGet evidence "initial_police_statements" (.dict [])
  let w21 ← narrStatements statements suspects
  let w22 ← narrWinConditions data killerId suspectsById
  .ok ⟨r.errors, r.warnings ++ w18 ++ w19 ++ w20 ++ w21 ++ w22⟩

/-! ## The check sequence of `validate_case` after a successful parse -/

/-- The post-parse pipeline of `validate_case`: the raw-text scan feeds the
collector, then each pass runs in order; a raised exception aborts the run
and no report is produced.  `fsExists` is the filesystem collaborator,
`enumIso` and `enumPhys` the set iteration orders used by `check_map` and
`check_evidence_ids`. -/
def runChecks (rawText : String) (data : Value) (projectRoot : String)
    (fsExists : String → Bool) (enumIso enumPhys : List String → List String) :
    Except PyExc Result := do
  let r0 : Result := ⟨[], []⟩
  let r0 : Result := ⟨check_duplicate_keys_raw rawText, r0.warnings⟩
  let r1 ← check_schema data r0
  let m ← check_map data enumIso r1
  let s ← check_suspects_and_solution data m.1 m.2.2
  let r3 ← check_evidence_ids data m.1 s.1 s.2.1 enumPhys s.2.2.2.2
  let r4 ← check_secret_triggers data m.1 r3
  let r5 ← check_assets data projectRoot fsExists r4
  check_narrative_consistency data r5

/-! ## Toolkit: message disjointness and `Except` computation -/

/-- Index extraction through a left append. -/
theorem getIdx_append_left {p q : List Char} {n : Nat} (h : n < p.length) :
    (p ++ q)[n]? = p[n]? := by
  rw [List.getElem?_append]
  simp [h]

/-- An index holding a character is inside the list. -/
theorem lt_of_getIdx {p : List Char} {n : Nat} {c : Char}
    (h : p[n]? = some c) : n < p.length := by
  by_contra hn
  push_neg at hn
  rw [List.getElem?_eq_none hn] at h
  cases h

/-- Two appends whose left parts differ at a common index are different. -/
theorem append_ne_of_idx_ne {p q u v : List Char} (i : Nat) (c d : Char)
    (hp : p[i]? = some c) (hq : q[i]? = some d) (hcd : c ≠ d) :
    p ++ u ≠ q ++ v := by
  intro h
  have h1 : (p ++ u)[i]? = some c := by
    rw [getIdx_append_left (lt_of_getIdx hp)]
    exact hp
  have h2 : (q ++ v)[i]? = some d := by
    rw [getIdx_append_left (lt_of_getIdx hq)]
    exact hq
  rw [h, h2] at h1
  exact hcd (Option.some.inj h1).symm

/-- Two string appends whose left parts differ at a common index are
different strings. -/
theorem str_append_ne (p q u v : String) (i : Nat) (c d : Char)
    (hp : p.data[i]? = some c) (hq : q.data[i]? = some d) (hcd : c ≠ d) :
    p ++ u ≠ q ++ v := by
  intro h
  have hd := congrArg String.data h
  rw [String.data_append p u, String.data_append q v] at hd
  exact append_ne_of_idx_ne i c d hp hq hcd hd

/-- Left cancellation for string append. -/
theorem str_append_cancel {p a b : String} (h : p ++ a = p ++ b) : a = b := by
  have hd := congrArg String.data h
  rw [String.data_append p a, String.data_append p b] at hd
  exact String.ext (List.append_cancel_left hd)

/-- Associativity of string append. -/
theorem str_append_assoc (a b c : String) : a ++ b ++ c = a ++ (b ++ c) := by
  apply String.ext
  rw [String.data_append (a ++ b) c, String.data_append a b,
    String.data_append a (b ++ c), String.data_append b c, List.append_assoc]

/-- Computation rule for a successful `Except` bind. -/
theorem bindE_ok {α β : Type} (a : α) (f : α → Except PyExc β) :
    (Except.ok a >>= f) = f a := rfl

/-- Computation rule for a failed `Except` bind. -/
theorem bindE_err {α β : Type} (e : PyExc) (f : α → Except PyExc β) :
    ((Except.error e : Except PyExc α) >>= f) = Except.error e := rfl

/-- Inversion of a successful `Except` bind. -/
theorem bindE_eq_ok {α β : Type} {x : Except PyExc α} {f : α → Except PyExc β}
    {b : β} (h : (x >>= f) = .ok b) : ∃ a, x = .ok a ∧ f a = .ok b := by
  cases x with
  | ok a => exact ⟨a, rfl, h⟩
  | error e => cases h

/-- Membership in an optional singleton. -/
theorem mem_optional {a b : String} {c : Bool} :
    a ∈ (if c then [b] else []) ↔ (c = true ∧ a = b) := by
  cases c <;> simp

/-- Membership in an optional singleton guarded by a proposition. -/
theorem mem_optional_p {a b : String} {c : Prop} [Decidable c] :
    a ∈ (if c then [b] else []) ↔ (c ∧ a = b) := by
  split <;> simp_all

/-! ## Claim C1 — the passes do not all run to completion -/

/-- The identity set-iteration order (a valid enumeration, used to
instantiate the `enum` parameters at concrete inputs). -/
def idEnum : List String → List String := fun l => l

/-- The reversed set-iteration order (also a valid enumeration). -/
def revEnum : List String → List String := fun l => l.reverse

/-- C1: on the successfully parsed empty document `{}` the evidence pass
raises `IndexError` (at `victim_data.get('name', '').split()[0]`), so the
run aborts with no report instead of completing every pass. -/
theorem C1_evidence_pass_raises :
    check_evidence_ids (.dict []) [] [] .none idEnum ⟨[], []⟩
        = .error .indexError
      ∧ runChecks "" (.dict []) "/root" (fun _ => true) idEnum idEnum
        = .error .indexError := by
  constructor <;> rfl

/-! ## Claim C6 — solution role resolution and the sentinel "none" -/

/-- The killer-not-found and accomplice-not-found messages differ. -/
theorem killerNF_ne_accNF (x y : Value) :
    killerNotFoundMsg x ≠ accompliceNotFoundMsg y := by
  rw [killerNotFoundMsg, accompliceNotFoundMsg, str_append_assoc,
    str_append_assoc]
  exact str_append_ne _ _ _ _ 10 'K' 'A' (by decide) (by decide) (by decide)

/-- The killer-not-found and witness-not-found messages differ. -/
theorem killerNF_ne_swNF (x y : Value) :
    killerNotFoundMsg x ≠ silentWitnessNotFoundMsg y := by
  rw [killerNotFoundMsg, silentWitnessNotFoundMsg, str_append_assoc,
    str_append_assoc]
  exact str_append_ne _ _ _ _ 10 'K' 'S' (by decide) (by decide) (by decide)

/-- The accomplice-not-found and witness-not-found messages differ. -/
theorem accNF_ne_swNF (x y : Value) :
    accompliceNotFoundMsg x ≠ silentWitnessNotFoundMsg y := by
  rw [accompliceNotFoundMsg, silentWitnessNotFoundMsg, str_append_assoc,
    str_append_assoc]
  exact str_append_ne _ _ _ _ 10 'A' 'S' (by decide) (by decide) (by decide)

/-- C6: a solution-role id produces the not-found error exactly when it does
not resolve among the declared suspect ids, with the sentinel `"none"`
exempting the accomplice and silent-witness roles (the killer has no such
exemption). -/
theorem C6_solution_roles (killer acc sw : Value) (suspectIds : List Value)
    (errs : List String)
    (h : solutionRoleErrors killer acc sw suspectIds = .ok errs) :
    (killerNotFoundMsg killer ∈ errs
      ↔ suspectIds.any (fun w => pyEq killer w) = false)
    ∧ (accompliceNotFoundMsg acc ∈ errs
      ↔ pyEq acc (.str "none") = false
        ∧ suspectIds.any (fun w => pyEq acc w) = false)
    ∧ (silentWitnessNotFoundMsg sw ∈ errs
      ↔ pyEq sw (.str "none") = false
        ∧ suspectIds.any (fun w => pyEq sw w) = false) := by
  have hspec : ∀ (x : Value) (msg : String) (out : List String),
      optionalRoleErrors x suspectIds msg = .ok out →
      out = if pyEq x (.str "none") = false
          ∧ (suspectIds.any fun w => pyEq x w) = false then [msg] else [] := by
    intro x msg out hx
    rw [optionalRoleErrors] at hx
    by_cases hn : pyEq x (.str "none") = true
    · rw [if_neg (by simp [hn])] at hx
      cases hx
      simp [hn]
    · have hn2 : pyEq x (.str "none") = false := by simpa using hn
      rw [if_pos (by simp [hn2])] at hx
      by_cases hh : pyHashable x = true
      · rw [pySetMem, if_pos hh, bindE_ok] at hx
        cases hx
        by_cases hm : (suspectIds.any fun w => pyEq x w) = false
        · simp [hn2, hm]
        · have hm2 : (suspectIds.any fun w => pyEq x w) = true := by simpa using hm
          simp [hn2, hm2]
      · rw [pySetMem, if_neg hh, bindE_err] at hx
        cases hx
  by_cases hk : pyHashable killer = true
  case neg =>
    rw [solutionRoleErrors, pySetMem, if_neg hk, bindE_err] at h
    cases h
  rw [solutionRoleErrors, pySetMem, if_pos hk, bindE_ok] at h
  obtain ⟨e2, h2, h⟩ := bindE_eq_ok h
  obtain ⟨e3, h3, h⟩ := bindE_eq_ok h
  cases h
  rw [hspec acc _ e2 h2, hspec sw _ e3 h3]
  have nKA := killerNF_ne_accNF killer acc
  have nKS := killerNF_ne_swNF killer sw
  have nAS := accNF_ne_swNF acc sw
  have nAK : accompliceNotFoundMsg acc ≠ killerNotFoundMsg killer :=
    fun he => nKA he.symm
  have nSK : silentWitnessNotFoundMsg sw ≠ killerNotFoundMsg killer :=
    fun he => nKS he.symm
  have nSA : silentWitnessNotFoundMsg sw ≠ accompliceNotFoundMsg acc :=
    fun he => nAS he.symm
  refine ⟨?_, ?_, ?_⟩ <;>
    simp [List.mem_append, mem_optional, mem_optional_p, nKA, nKS, nAS, nAK,
      nSK, nSA, Bool.not_eq_true']

/-! ## Claim C5 — suspect flag / solution coherence -/

/-- Suffix injectivity of the shared suspect-message opening. -/
theorem suspectMsg_cancel {sid : Value} {s1 s2 : String}
    (h : suspectMsg sid s1 = suspectMsg sid s2) : s1 = s2 :=
  str_append_cancel h

/-- Equality of suspect messages is equality of their suffixes. -/
theorem suspectMsg_eq_iff {sid : Value} {s1 s2 : String} :
    (suspectMsg sid s1 = suspectMsg sid s2) = (s1 = s2) :=
  propext ⟨suspectMsg_cancel, fun h => h ▸ rfl⟩

/-- Strings differing at a common index are different. -/
theorem str_ne_of_idx {p q : String} (i : Nat) (c d : Char)
    (hp : p.data[i]? = some c) (hq : q.data[i]? = some d) (hcd : c ≠ d) :
    p ≠ q := by
  intro h
  rw [h] at hp
  rw [hp] at hq
  exact hcd (Option.some.inj hq)

/-- The `currentLocation` suffix differs from every flag-check suffix
(which all have `'i'` at index 3). -/
theorem clSuffix_ne (cl : Value) {s : String} (hs : s.data[3]? = some 'i') :
    "': currentLocation '" ++ pyStr cl ++ "' not in map" ≠ s := by
  apply str_ne_of_idx 3 'c' 'i' ?_ hs (by decide)
  rw [str_append_assoc, String.data_append, getIdx_append_left (by decide)]
  decide

/-- Membership in a conditional list. -/
theorem mem_ite_list {a : String} {c : Prop} [Decidable c]
    {l1 l2 : List String} :
    (a ∈ if c then l1 else l2) ↔ ((c ∧ a ∈ l1) ∨ (¬c ∧ a ∈ l2)) := by
  split <;> simp_all

/-- C5: for a declared suspect, a role-flag error is recorded exactly when
the suspect's boolean flag disagrees with whether its id equals the
corresponding solution-role id — flag true without holding the role, or
holding the role without a true flag — in both directions for all three
roles. -/
theorem C5_flag_coherence (rooms : List String) (killer acc sw : Value)
    (fields : List (String × Value)) (sidv : Value) (res : Result)
    (hid : fields.lookup "id" = some sidv)
    (h : suspectLoopBody rooms killer acc sw (.dict fields) = .ok res) :
    (killerFlagMissingMsg sidv ∈ res.errors
      ↔ pyEq sidv killer = true
        ∧ pyTruthy ((fields.lookup "isGuilty").getD .none) = false)
    ∧ (killerFlagWrongMsg sidv ∈ res.errors
      ↔ pyEq sidv killer = false
        ∧ pyTruthy ((fields.lookup "isGuilty").getD .none) = true)
    ∧ (accompliceFlagMissingMsg sidv ∈ res.errors
      ↔ pyEq sidv acc = true
        ∧ pyTruthy ((fields.lookup "isAccomplice").getD .none) = false)
    ∧ (accompliceFlagWrongMsg sidv ∈ res.errors
      ↔ pyEq sidv acc = false
        ∧ pyTruthy ((fields.lookup "isAccomplice").getD .none) = true)
    ∧ (witnessFlagMissingMsg sidv ∈ res.errors
      ↔ pyEq sidv sw = true
        ∧ pyTruthy ((fields.lookup "isSilentWitness").getD .none) = false)
    ∧ (witnessFlagWrongMsg sidv ∈ res.errors
      ↔ pyEq sidv sw = false
        ∧ pyTruthy ((fields.lookup "isSilentWitness").getD .none) = true) := by
  rw [suspectLoopBody, pySubscript, hid, bindE_ok, pyGet, bindE_ok] at h
  obtain ⟨clErrs, hcl, h⟩ := bindE_eq_ok h
  rw [pyGet, bindE_ok, pyGet, bindE_ok, pyGet, bindE_ok, pyGet, bindE_ok,
    pyGet, bindE_ok, pyGet, bindE_ok] at h
  injection h with h
  subst h
  have hclshape : clErrs = []
      ∨ clErrs = [clNotInMapMsg sidv
          ((fields.lookup "currentLocation").getD .none)] := by
    rw [clErrsOf] at hcl
    by_cases ht : pyTruthy ((fields.lookup "currentLocation").getD .none) = true
    · rw [if_pos ht] at hcl
      obtain ⟨m, _, hcl⟩ := bindE_eq_ok hcl
      injection hcl with hcl
      subst hcl
      by_cases hm : (!m) = true
      · right
        rw [if_pos hm]
      · left
        rw [if_neg hm]
    · rw [if_neg ht] at hcl
      injection hcl with hcl
      subst hcl
      left
      rfl
  have c1 := (clSuffix_ne ((fields.lookup "currentLocation").getD Value.none)
    (s := "': is solution killer but isGuilty is not true") (by decide)).symm
  have c2 := (clSuffix_ne ((fields.lookup "currentLocation").getD Value.none)
    (s := "': isGuilty is true but is not the solution killer") (by decide)).symm
  have c3 := (clSuffix_ne ((fields.lookup "currentLocation").getD Value.none)
    (s := "': is solution accomplice but isAccomplice is not true") (by decide)).symm
  have c4 := (clSuffix_ne ((fields.lookup "currentLocation").getD Value.none)
    (s := "': isAccomplice is true but is not the solution accomplice") (by decide)).symm
  have c5 := (clSuffix_ne ((fields.lookup "currentLocation").getD Value.none)
    (s := "': is solution silent_witness but isSilentWitness is not true") (by decide)).symm
  have c6 := (clSuffix_ne ((fields.lookup "currentLocation").getD Value.none)
    (s := "': isSilentWitness is true but is not the solution silent_witness") (by decide)).symm
  have n12 : ("': is solution killer but isGuilty is not true" : String)
      ≠ "': isGuilty is true but is not the solution killer" := by decide
  have n13 : ("': is solution killer but isGuilty is not true" : String)
      ≠ "': is solution accomplice but isAccomplice is not true" := by decide
  have n14 : ("': is solution killer but isGuilty is not true" : String)
      ≠ "': isAccomplice is true but is not the solution accomplice" := by decide
  have n15 : ("': is solution killer but isGuilty is not true" : String)
      ≠ "': is solution silent_witness but isSilentWitness is not true" := by decide
  have n16 : ("': is solution killer but isGuilty is not true" : String)
      ≠ "': isSilentWitness is true but is not the solution silent_witness" := by decide
  have n23 : ("': isGuilty is true but is not the solution killer" : String)
      ≠ "': is solution accomplice but isAccomplice is not true" := by decide
  have n24 : ("': isGuilty is true but is not the solution killer" : String)
      ≠ "': isAccomplice is true but is not the solution accomplice" := by decide
  have n25 : ("': isGuilty is true but is not the solution killer" : String)
      ≠ "': is solution silent_witness but isSilentWitness is not true" := by decide
  have n26 : ("': isGuilty is true but is not the solution killer" : String)
      ≠ "': isSilentWitness is true but is not the solution silent_witness" := by decide
  have n34 : ("': is solution accomplice but isAccomplice is not true" : String)
      ≠ "': isAccomplice is true but is not the solution accomplice" := by decide
  have n35 : ("': is solution accomplice but isAccomplice is not true" : String)
      ≠ "': is solution silent_witness but isSilentWitness is not true" := by decide
  have n36 : ("': is solution accomplice but isAccomplice is not true" : String)
      ≠ "': isSilentWitness is true but is not the solution silent_witness" := by decide
  have n45 : ("': isAccomplice is true but is not the solution accomplice" : String)
      ≠ "': is solution silent_witness but isSilentWitness is not true" := by decide
  have n46 : ("': isAccomplice is true but is not the solution accomplice" : String)
      ≠ "': isSilentWitness is true but is not the solution silent_witness" := by decide
  have n56 : ("': is solution silent_witness but isSilentWitness is not true" : String)
      ≠ "': isSilentWitness is true but is not the solution silent_witness" := by decide
  rcases hclshape with rfl | rfl <;>
    refine ⟨?_, ?_, ?_, ?_, ?_, ?_⟩ <;>
      simp [List.mem_append, mem_ite_list, killerFlagMissingMsg,
        killerFlagWrongMsg, accompliceFlagMissingMsg, accompliceFlagWrongMsg,
        witnessFlagMissingMsg, witnessFlagWrongMsg, clNotInMapMsg,
        suspectMsg_eq_iff, c1, c2, c3, c4, c5, c6,
        n12, n12.symm, n13, n13.symm, n14, n14.symm, n15, n15.symm,
        n16, n16.symm, n23, n23.symm, n24, n24.symm, n25, n25.symm,
        n26, n26.symm, n34, n34.symm, n35, n35.symm, n36, n36.symm,
        n45, n45.symm, n46, n46.symm, n56, n56.symm]

/-- Witness for C6 at a concrete solution: an unresolvable killer and silent
witness produce their errors, the sentinel accomplice produces none. -/
theorem C6_witness :
    solutionRoleErrors (.str "x") (.str "none") (.str "y") [.str "a"]
        = .ok [killerNotFoundMsg (.str "x"), silentWitnessNotFoundMsg (.str "y")]
    ∧ (killerNotFoundMsg (.str "x")
        ∈ [killerNotFoundMsg (.str "x"), silentWitnessNotFoundMsg (.str "y")]
      ↔ ([Value.str "a"].any (fun w => pyEq (.str "x") w) = false)) :=
  ⟨rfl, (C6_solution_roles (.str "x") (.str "none") (.str "y") [.str "a"]
    [killerNotFoundMsg (.str "x"), silentWitnessNotFoundMsg (.str "y")] rfl).1⟩

/-- Witness for C5 at a concrete suspect: the solution killer with an absent
`isGuilty` flag gets exactly the missing-flag error. -/
theorem C5_witness :
    ([(("id" : String), Value.str "k")].lookup "id" = some (.str "k"))
    ∧ suspectLoopBody [] (.str "k") (.str "none") (.str "none")
        (.dict [("id", .str "k")])
      = .ok ⟨[killerFlagMissingMsg (.str "k")],
          [missingAlibiMsg (.str "k"), noSecretsMsg (.str "k")]⟩
    ∧ (killerFlagMissingMsg (.str "k")
        ∈ (Result.mk [killerFlagMissingMsg (.str "k")]
            [missingAlibiMsg (.str "k"), noSecretsMsg (.str "k")]).errors
      ↔ pyEq (.str "k") (.str "k") = true
        ∧ pyTruthy (([(("id" : String), Value.str "k")].lookup
            "isGuilty").getD .none) = false) :=
  ⟨rfl, rfl,
    (C5_flag_coherence [] (.str "k") (.str "none") (.str "none")
      [("id", .str "k")] (.str "k") _ rfl rfl).1⟩

/-! ## Claim C7 — secret self-reference -/

/-- Equality of secret messages is equality of their suffixes. -/
theorem secretMsg_eq_iff {sid sec : Value} {s1 s2 : String} :
    (secretMsg sid sec s1 = secretMsg sid sec s2) = (s1 = s2) :=
  propext ⟨fun h => str_append_cancel h, fun h => h ▸ rfl⟩

/-- Index lookup through a literal head of an append. -/
theorem appSuffix_idx {lit rest : String} {i : Nat} {c : Char}
    (hi : lit.data[i]? = some c) : (lit ++ rest).data[i]? = some c := by
  rw [String.data_append, getIdx_append_left (lt_of_getIdx hi)]
  exact hi

/-- The dot-notation suffix never equals the self-reference suffix. -/
theorem dotSuffix_ne_self (r : Value) :
    ("': requiresEvidence uses dot-notation '" ++ pyStr r ++
        "' — use requiresSecrets for secret cross-references" : String)
      ≠ "': requiresSecrets references itself — circular dependency" := by
  apply str_ne_of_idx 11 'E' 'S' ?_ (by decide) (by decide)
  rw [str_append_assoc]
  exact appSuffix_idx (by decide)

/-- The undeclared-id suffix never equals the self-reference suffix. -/
theorem undeclSuffix_ne_self (r : Value) :
    ("': requiresEvidence references undeclared ID '" ++ pyStr r ++ "'" : String)
      ≠ "': requiresSecrets references itself — circular dependency" := by
  apply str_ne_of_idx 11 'E' 'S' ?_ (by decide) (by decide)
  rw [str_append_assoc]
  exact appSuffix_idx (by decide)

/-- The unknown-secret suffix never equals the self-reference suffix. -/
theorem unknownSuffix_ne_self (r : Value) :
    ("': requiresSecrets references unknown secret ID '" ++ pyStr r ++ "'" : String)
      ≠ "': requiresSecrets references itself — circular dependency" := by
  apply str_ne_of_idx 30 'u' 'i' ?_ (by decide) (by decide)
  rw [str_append_assoc]
  exact appSuffix_idx (by decide)

/-- The minPressure-type suffix never equals the self-reference suffix. -/
theorem mpSuffix_ne_self (mp : Value) :
    ("': minPressure must be a number, got '" ++ pyStr mp ++ "'" : String)
      ≠ "': requiresSecrets references itself — circular dependency" := by
  apply str_ne_of_idx 3 'm' 'r' ?_ (by decide) (by decide)
  rw [str_append_assoc]
  exact appSuffix_idx (by decide)

/-- Counting a different message in an optional singleton gives zero. -/
theorem count_optional_ne {a m : String} {c : Prop} [Decidable c]
    (hne : a ≠ m) : List.count a (if c then [m] else []) = 0 := by
  rw [List.count_eq_zero]
  intro hmem
  split at hmem
  · rw [List.mem_singleton] at hmem
    exact hne hmem
  · cases hmem

/-- Counting the message of an optional singleton. -/
theorem count_optional_self {m : String} {c : Prop} [Decidable c] :
    List.count m (if c then [m] else []) = if c then 1 else 0 := by
  split <;> simp

/-- Every message of one `requiresEvidence` entry is its dot-notation or
undeclared-id error. -/
theorem reqEvidenceOne_shape {sid sec : Value} {flat : List String}
    {req : Value} {e : List String}
    (h : reqEvidenceOne sid sec flat req = .ok e) :
    ∀ x ∈ e, x = dotNotationMsg sid sec req ∨ x = undeclaredEvidenceMsg sid sec req := by
  rw [reqEvidenceOne] at h
  obtain ⟨hasDot, _, h⟩ := bindE_eq_ok h
  by_cases hd : hasDot = true
  · rw [if_pos hd] at h
    injection h with h
    subst h
    intro x hx
    rw [List.mem_singleton] at hx
    exact Or.inl hx
  · rw [if_neg hd] at h
    obtain ⟨m, _, h⟩ := bindE_eq_ok h
    injection h with h
    subst h
    intro x hx
    split at hx
    · rw [List.mem_singleton] at hx
      exact Or.inr hx
    · cases hx

/-- Every message of the `requiresEvidence` loop is a dot-notation or
undeclared-id error. -/
theorem reqEvidenceErrors_shape {sid sec : Value} {flat : List String}
    {l : List Value} {e : List String}
    (h : reqEvidenceErrors sid sec flat l = .ok e) :
    ∀ x ∈ e, ∃ r, x = dotNotationMsg sid sec r ∨ x = undeclaredEvidenceMsg sid sec r := by
  induction l generalizing e with
  | nil =>
    rw [reqEvidenceErrors] at h
    injection h with h
    subst h
    intro x hx
    cases hx
  | cons req rest ih =>
    rw [reqEvidenceErrors] at h
    obtain ⟨head, hhead, h⟩ := bindE_eq_ok h
    obtain ⟨tail, htail, h⟩ := bindE_eq_ok h
    injection h with h
    subst h
    intro x hx
    rcases List.mem_append.mp hx with hx | hx
    · obtain hx | hx := reqEvidenceOne_shape hhead x hx
      · exact ⟨req, Or.inl hx⟩
      · exact ⟨req, Or.inr hx⟩
    · exact ih htail x hx

/-- Every message of the `requiresSecrets` loop is an unknown-secret error,
and every non-resolving entry contributes its error. -/
theorem reqSecretsErrors_spec {sid sec : Value} {flat : List Value}
    {l : List Value} {e : List String}
    (h : reqSecretsErrors sid sec flat l = .ok e) :
    (∀ x ∈ e, ∃ r, x = unknownSecretMsg sid sec r)
    ∧ (∀ req ∈ l, (flat.any fun w => pyEq req w) = false →
        unknownSecretMsg sid sec req ∈ e) := by
  induction l generalizing e with
  | nil =>
    rw [reqSecretsErrors] at h
    injection h with h
    subst h
    exact ⟨fun x hx => absurd hx (List.not_mem_nil x),
      fun req hreq => absurd hreq (List.not_mem_nil req)⟩
  | cons req rest ih =>
    rw [reqSecretsErrors] at h
    obtain ⟨mem, hmem, h⟩ := bindE_eq_ok h
    obtain ⟨tail, htail, h⟩ := bindE_eq_ok h
    injection h with h
    subst h
    have hmemval : mem = (flat.any fun w => pyEq req w) := by
      rw [pySetMem] at hmem
      by_cases hh : pyHashable req = true
      · rw [if_pos hh] at hmem
        injection hmem with hmem
        exact hmem.symm
      · rw [if_neg hh] at hmem
        cases hmem
    obtain ⟨ihshape, ihmem⟩ := ih htail
    constructor
    · intro x hx
      rcases List.mem_append.mp hx with hx | hx
      · split at hx
        · rw [List.mem_singleton] at hx
          exact ⟨req, hx⟩
        · cases hx
      · exact ihshape x hx
    · intro r hr hflat
      rcases List.mem_cons.mp hr with rfl | hr
      · apply List.mem_append_left
        rw [hmemval, hflat]
        simp
      · exact List.mem_append_right _ (ihmem r hr hflat)

/-- C7: a secret whose `requiresSecrets` list contains its own id gets
exactly one self-reference error, regardless of how often the id occurs and
of whether it resolves among the declared secret ids; every entry that does
not resolve additionally gets its unknown-secret error. -/
theorem C7_self_reference (sid : Value) (validFlat : List String)
    (allSecretFlat : List Value) (sfields tfields : List (String × Value))
    (secv : Value) (reqs : List Value) (res : Result)
    (hsid : sfields.lookup "id" = some secv)
    (htrig : sfields.lookup "trigger" = some (.dict tfields))
    (hreq : tfields.lookup "requiresSecrets" = some (.list reqs))
    (h : secretTriggerBody sid validFlat allSecretFlat (.dict sfields)
      = .ok res) :
    res.errors.count (selfRefMsg sid secv)
      = (if pyListMem secv reqs then 1 else 0)
    ∧ (∀ req ∈ reqs, (allSecretFlat.any fun w => pyEq req w) = false →
        unknownSecretMsg sid secv req ∈ res.errors) := by
  simp only [secretTriggerBody, pySubscript, hsid, pyGet, htrig, hreq,
    Option.getD_some, bindE_ok, pyIterList, pyInContainer] at h
  obtain ⟨reqEvV, _, h⟩ := bindE_eq_ok h
  obtain ⟨e1, he1, h⟩ := bindE_eq_ok h
  obtain ⟨e2, he2, h⟩ := bindE_eq_ok h
  injection h with h
  subst h
  have hshape1 := reqEvidenceErrors_shape he1
  obtain ⟨hshape2, hmem2⟩ := reqSecretsErrors_spec he2
  constructor
  · have hc1 : List.count (selfRefMsg sid secv) e1 = 0 := by
      rw [List.count_eq_zero]
      intro hmem
      obtain ⟨r, hr | hr⟩ := hshape1 _ hmem
      · exact dotSuffix_ne_self r (str_append_cancel hr.symm)
      · exact undeclSuffix_ne_self r (str_append_cancel hr.symm)
    have hc2 : List.count (selfRefMsg sid secv) e2 = 0 := by
      rw [List.count_eq_zero]
      intro hmem
      obtain ⟨r, hr⟩ := hshape2 _ hmem
      exact unknownSuffix_ne_self r (str_append_cancel hr.symm)
    have hne4 : selfRefMsg sid secv
        ≠ minPressureTypeMsg sid secv ((tfields.lookup "minPressure").getD .none) :=
      fun he => mpSuffix_ne_self ((tfields.lookup "minPressure").getD .none)
        (str_append_cancel he.symm)
    simp only [List.count_append, hc1, hc2, count_optional_self,
      count_optional_ne hne4, Nat.zero_add, Nat.add_zero]
  · intro req hr hflat
    have := hmem2 req hr hflat
    exact List.mem_append_left _ (List.mem_append_left _
      (List.mem_append_right _ this))

/-- Witness for C7 at a concrete secret: a twice-repeated unresolvable
self-reference yields two unknown-id errors and exactly one self-reference
error. -/
theorem C7_witness :
    (([("id", Value.str "x"),
        ("trigger", Value.dict [("requiresSecrets",
          Value.list [Value.str "x", Value.str "x"])])] :
        List (String × Value)).lookup "id" = some (.str "x"))
    ∧ secretTriggerBody (.str "s1") [] []
        (.dict [("id", .str "x"),
          ("trigger", .dict [("requiresSecrets",
            .list [.str "x", .str "x"])])])
      = .ok ⟨[unknownSecretMsg (.str "s1") (.str "x") (.str "x"),
          unknownSecretMsg (.str "s1") (.str "x") (.str "x"),
          selfRefMsg (.str "s1") (.str "x")], []⟩
    ∧ (Result.mk [unknownSecretMsg (.str "s1") (.str "x") (.str "x"),
          unknownSecretMsg (.str "s1") (.str "x") (.str "x"),
          selfRefMsg (.str "s1") (.str "x")] []).errors.count
        (selfRefMsg (.str "s1") (.str "x"))
      = (if pyListMem (.str "x") [Value.str "x", Value.str "x"] then 1 else 0) :=
  ⟨rfl, rfl,
    (C7_self_reference (.str "s1") [] []
      [("id", .str "x"),
        ("trigger", .dict [("requiresSecrets", .list [.str "x", .str "x"])])]
      [("requiresSecrets", .list [.str "x", .str "x"])]
      (.str "x") [.str "x", .str "x"] _ rfl rfl rfl rfl).1⟩

/-! ## Claim C2 — duplicate-key scanner on sibling keys and list items -/

/-- A plain mapping-key character: no whitespace, colon, comment or list
marker, no flow-mapping brace, no quote.  Ordinary identifiers such as
`suspects` or `connects_to` consist of such characters. -/
def plainKeyChar (c : Char) : Prop :=
  isPySpace c = false ∧ c ≠ ':' ∧ c ≠ '#' ∧ c ≠ '-' ∧ c ≠ '\x7b' ∧
    c ≠ '\'' ∧ c ≠ '"'

instance (c : Char) : Decidable (plainKeyChar c) := by
  unfold plainKeyChar
  infer_instance

/-- `lstrip` is the identity on a line whose first character is not
whitespace. -/
theorem lstrip_no_space_head {c : Char} (hc : isPySpace c = false)
    (l : List Char) : pyLStrip (c :: l) = c :: l := by
  simp [pyLStrip, List.dropWhile_cons, hc]

/-- A run of non-matching characters survives `dropWhile`. -/
theorem dropWhile_eq_self {p : Char → Bool} :
    ∀ {l : List Char}, (∀ c ∈ l, p c = false) → l.dropWhile p = l
  | [], _ => rfl
  | c :: cs, h => by
    simp [List.dropWhile_cons, h c (List.mem_cons_self c cs)]

/-- `strip()` is the identity on a whitespace-free word. -/
theorem strip_id {k : List Char} (h : ∀ c ∈ k, isPySpace c = false) :
    pyStrip k = k := by
  rw [pyStrip, pyLStrip, dropWhile_eq_self h, pyRStrip,
    dropWhile_eq_self (fun c hc => h c (List.mem_reverse.mp hc)),
    List.reverse_reverse]

/-- `strip("'\"")` is the identity on a quote-free word. -/
theorem stripChars_id {k : List Char}
    (h : ∀ c ∈ k, (['\'', '"'] : List Char).contains c = false) :
    pyStripChars ['\'', '"'] k = k := by
  rw [pyStripChars, dropWhile_eq_self h,
    dropWhile_eq_self (fun c hc => h c (List.mem_reverse.mp hc)),
    List.reverse_reverse]

/-- The colon of a `key: value` line is found. -/
theorem contains_colon (k v : List Char) :
    (k ++ ':' :: v).contains ':' = true :=
  List.elem_iff.mpr (List.mem_append_right _ (List.mem_cons_self _ _))

/-- A line not starting with a dash is no list item. -/
theorem dash_prefix_false {c : Char} (hc : c ≠ '-') (l : List Char) :
    ((['-', ' '] : List Char).isPrefixOf (c :: l)) = false := by
  simp [List.isPrefixOf, hc]
  intro h
  exact absurd h.symm hc

/-- The quoted-key regex fails on an unquoted line. -/
theorem matchQuoted_none {c : Char} (h1 : c ≠ '\'') (h2 : c ≠ '"')
    (l : List Char) : matchQuotedKey (c :: l) = Option.none := by
  have e1 : (c = '\'') = False := by simp [h1]
  have e2 : (c = '"') = False := by simp [h2]
  simp [matchQuotedKey, e1, e2]

/-- `split(':')[0]` of a colon-free key followed by a colon. -/
theorem beforeColon_key {k : List Char} (h : ∀ c ∈ k, c ≠ ':')
    (v : List Char) : beforeColon (k ++ ':' :: v) = k := by
  induction k with
  | nil => simp [beforeColon]
  | cons c cs ih =>
    rw [List.cons_append, beforeColon, List.takeWhile_cons]
    have hc : (c ≠ ':') = True := by simp [h c (List.mem_cons_self c cs)]
    rw [← beforeColon, ih (fun x hx => h x (List.mem_cons_of_mem c hx))]
    simp [h c (List.mem_cons_self c cs)]

/-- `rstrip` is the identity when the final character is not whitespace. -/
theorem rstrip_concat {l : List Char} {c : Char} (hc : isPySpace c = false) :
    pyRStrip (l ++ [c]) = l ++ [c] := by
  rw [pyRStrip, List.reverse_append]
  simp [List.dropWhile_cons, hc]

/-- The `": "` run after a key is found anywhere in the line. -/
theorem hasRun_colon_space (k rest : List Char) :
    listHasRun [':', ' '] (k ++ ':' :: ' ' :: rest) = true := by
  induction k with
  | nil => simp [listHasRun, List.isPrefixOf]
  | cons c cs ih => simp [listHasRun, ih]

/-- The colon of a `key: value` line is found (head-normal form). -/
theorem contains_colon_cons (c0 : Char) (cs v : List Char) :
    (c0 :: (cs ++ ':' :: v)).contains ':' = true := by
  rw [← List.cons_append]
  exact contains_colon _ _

/-- `split(':')[0]` of a colon-free key (head-normal form). -/
theorem beforeColon_cons {c0 : Char} {cs : List Char}
    (h : ∀ x ∈ c0 :: cs, x ≠ ':') (v : List Char) :
    beforeColon (c0 :: (cs ++ ':' :: v)) = c0 :: cs := by
  rw [← List.cons_append]
  exact beforeColon_key h v

/-- The `": "` run after the key is found (head-normal form). -/
theorem hasRun_cons (c0 : Char) (cs rest : List Char) :
    listHasRun [':', ' '] (c0 :: (cs ++ ':' :: ' ' :: rest)) = true := by
  rw [← List.cons_append]
  exact hasRun_colon_space _ _

/-- The last character of a `key: value` line (head-normal form). -/
theorem getLast_kv_cons (c0 : Char) (cs t : List Char) (c : Char) :
    (c0 :: (cs ++ ':' :: ' ' :: (t ++ [c]))).getLast? = some c := by
  have : c0 :: (cs ++ ':' :: ' ' :: (t ++ [c]))
      = (c0 :: (cs ++ ':' :: ' ' :: t)) ++ [c] := by simp
  rw [this]
  exact List.getLast?_concat _

/-- `rstrip` is the identity on a `key: value` line with a non-space final
character (head-normal form). -/
theorem rstrip_kv_cons (c0 : Char) (cs t : List Char) {c : Char}
    (hc : isPySpace c = false) :
    pyRStrip (c0 :: (cs ++ ':' :: ' ' :: (t ++ [c])))
      = c0 :: (cs ++ ':' :: ' ' :: (t ++ [c])) := by
  rw [← List.cons_append,
    show (c0 :: cs) ++ ':' :: ' ' :: (t ++ [c])
      = ((c0 :: cs) ++ ':' :: ' ' :: t) ++ [c] by simp]
  exact rstrip_concat hc

/-- One `key: value` line processed in the base scope: a key already seen is
a duplicate-key error, a fresh key is recorded; the scope stack is otherwise
unchanged.  The value is any run ending in a non-space, non-colon
character. -/
theorem scanStep_kv_base (sb : List (List Char × Nat)) (errs : List String)
    (n : Nat) (kd : List Char) (hk : kd ≠ [])
    (hplain : ∀ c ∈ kd, plainKeyChar c) (t : List Char) (c : Char)
    (hc : isPySpace c = false) (hc2 : c ≠ ':') :
    scanStep [⟨-1, false, sb⟩] errs n (kd ++ ':' :: ' ' :: (t ++ [c])) =
      match sb.lookup kd with
      | some prev =>
        ([⟨-1, false, sb⟩], errs ++ [dupKeyMsg n (String.mk kd) prev])
      | Option.none => ([⟨-1, false, sb ++ [(kd, n)]⟩], errs) := by
  obtain ⟨c0, cs, rfl⟩ := List.exists_cons_of_ne_nil hk
  have h0 := hplain c0 (List.mem_cons_self _ _)
  have hnc : ∀ x ∈ c0 :: cs, x ≠ ':' := fun x hx => (hplain x hx).2.1
  have hns : ∀ x ∈ c0 :: cs, isPySpace x = false := fun x hx => (hplain x hx).1
  have hnq : ∀ x ∈ c0 :: cs, (['\'', '"'] : List Char).contains x = false := by
    intro x hx
    have := hplain x hx
    exact contains_eq_false_iff.mpr
      (by simp [this.2.2.2.2.2.1, this.2.2.2.2.2.2])
  have hmq := matchQuoted_none (l := cs ++ ':' :: ' ' :: (t ++ [c]))
    h0.2.2.2.2.2.1 h0.2.2.2.2.2.2
  have hbc := beforeColon_cons hnc (' ' :: (t ++ [c]))
  have hlh := lstrip_no_space_head h0.1 (cs ++ ':' :: ' ' :: (t ++ [c]))
  have hdp := dash_prefix_false h0.2.2.2.1 (cs ++ ':' :: ' ' :: (t ++ [c]))
  have hcc := contains_colon_cons c0 cs (' ' :: (t ++ [c]))
  cases hl : List.lookup (c0 :: cs) sb <;>
    simp [scanStep, scanKey, List.cons_append, hlh, hdp, hmq, hbc,
      strip_id hns, stripChars_id hnq, rstrip_kv_cons c0 cs t hc,
      getLast_kv_cons, hasRun_cons, hcc, popScopes, hl, h0.2.2.1,
      h0.2.2.2.2.1, hc2]

/-- A list-item line `- key: value` opens a fresh item scope and records its
key there, producing no error — whatever an earlier sibling item recorded.
The hypothesis on `popScopes` covers both the base stack and the stack left
behind by a previous item line at the same indentation. -/
theorem scanStep_item_kv (sb : List (List Char × Nat)) (st : List Frame)
    (hst : popScopes 0 st = [⟨-1, false, sb⟩]) (errs : List String)
    (n : Nat) (kd : List Char) (hk : kd ≠ [])
    (hplain : ∀ c ∈ kd, plainKeyChar c) (t : List Char) (c : Char)
    (hc : isPySpace c = false) (hc2 : c ≠ ':') :
    scanStep st errs n ('-' :: ' ' :: (kd ++ ':' :: ' ' :: (t ++ [c]))) =
      ([⟨0, true, [(kd, n)]⟩, ⟨-1, false, sb⟩], errs) := by
  obtain ⟨c0, cs, rfl⟩ := List.exists_cons_of_ne_nil hk
  have h0 := hplain c0 (List.mem_cons_self _ _)
  have hnc : ∀ x ∈ c0 :: cs, x ≠ ':' := fun x hx => (hplain x hx).2.1
  have hns : ∀ x ∈ c0 :: cs, isPySpace x = false := fun x hx => (hplain x hx).1
  have hnq : ∀ x ∈ c0 :: cs, (['\'', '"'] : List Char).contains x = false := by
    intro x hx
    have := hplain x hx
    exact contains_eq_false_iff.mpr
      (by simp [this.2.2.2.2.2.1, this.2.2.2.2.2.2])
  have hmq := matchQuoted_none (l := cs ++ ':' :: ' ' :: (t ++ [c]))
    h0.2.2.2.2.2.1 h0.2.2.2.2.2.2
  have hbc := beforeColon_cons hnc (' ' :: (t ++ [c]))
  have hlh := lstrip_no_space_head h0.1 (cs ++ ':' :: ' ' :: (t ++ [c]))
  have hcc := contains_colon_cons c0 cs (' ' :: (t ++ [c]))
  have hlh0 := lstrip_no_space_head (c := '-') (by decide)
    (' ' :: (c0 :: (cs ++ ':' :: ' ' :: (t ++ [c]))))
  have hpre : (['-', ' '] : List Char).isPrefixOf
      ('-' :: ' ' :: (c0 :: (cs ++ ':' :: ' ' :: (t ++ [c])))) = true := by
    simp [List.isPrefixOf]
  have hdrop : ('-' :: ' ' :: (c0 :: (cs ++ ':' :: ' ' :: (t ++ [c])))).drop 2
      = c0 :: (cs ++ ':' :: ' ' :: (t ++ [c])) := rfl
  have h02 : ((0 : Int) ≥ 2) = False := by decide
  have h02l : ((2 : Int) ≤ 0) = False := by decide
  simp [scanStep, scanKey, List.cons_append, hlh, hmq, hbc, hlh0, hpre, hdrop,
    strip_id hns, stripChars_id hnq, rstrip_kv_cons c0 cs t hc,
    getLast_kv_cons, hasRun_cons, hcc, popScopes, hst, h0.2.2.1,
    h0.2.2.2.2.1, hc2, sub_self, zero_add, h02, h02l, List.lookup]

/-- Closing the item scope at the next sibling list item. -/
theorem popScopes_item (sb s : List (List Char × Nat)) :
    popScopes 0 [⟨0, true, s⟩, ⟨-1, false, sb⟩] = [⟨-1, false, sb⟩] := by
  have h00 : ((0 : Int) ≥ 0) = True := by decide
  have h00l : ((0 : Int) ≤ 0) = True := by decide
  simp [popScopes, h00, h00l]

/-- A run of sibling list items at the same indentation, each containing the
same key once, records no error: every item line replaces the previous item
scope by a fresh one. -/
theorem scanLinesAux_items (kd : List Char) (hk : kd ≠ [])
    (hplain : ∀ c ∈ kd, plainKeyChar c) (t : List Char) (c : Char)
    (hc : isPySpace c = false) (hc2 : c ≠ ':')
    (sb : List (List Char × Nat)) :
    ∀ (m : Nat) (st : List Frame), popScopes 0 st = [⟨-1, false, sb⟩] →
      ∀ (errs : List String) (n : Nat),
      scanLinesAux st errs n
        (List.replicate m ('-' :: ' ' :: (kd ++ ':' :: ' ' :: (t ++ [c]))))
        = errs := by
  intro m
  induction m with
  | zero => intro st hst errs n; rfl
  | succ m ih =>
    intro st hst errs n
    rw [List.replicate_succ]
    simp only [scanLinesAux]
    rw [scanStep_item_kv sb st hst errs n kd hk hplain t c hc hc2]
    exact ih _ (popScopes_item sb _) errs (n + 1)

/-- Joining lines with `'\n'`, the inverse of `splitlines` on newline-free
nonempty lines. -/
def joinNL : List (List Char) → List Char
  | [] => []
  | [l] => l
  | l :: ls => l ++ '\n' :: joinNL ls

/-- `splitAtNL` never returns the empty list of pieces. -/
theorem splitAtNL_ne_nil : ∀ (l : List Char), splitAtNL l ≠ []
  | [] => by simp [splitAtNL]
  | c :: cs => by
    rw [splitAtNL]
    split <;> simp

/-- `splitAtNL` of a newline-free line is that line alone. -/
theorem splitAtNL_no_nl : ∀ {l : List Char},
    (∀ x ∈ l, x ≠ '\n') → splitAtNL l = [l]
  | [], _ => rfl
  | c :: cs, h => by
    rw [splitAtNL, splitAtNL_no_nl (fun x hx => h x (List.mem_cons_of_mem c hx))]
    simp [h c (List.mem_cons_self c cs)]

/-- `splitAtNL` splits off a newline-free first line. -/
theorem splitAtNL_append {l1 : List Char} (h : ∀ x ∈ l1, x ≠ '\n')
    (rest : List Char) :
    splitAtNL (l1 ++ '\n' :: rest) = l1 :: splitAtNL rest := by
  induction l1 with
  | nil => simp [splitAtNL]
  | cons c cs ih =>
    rw [List.cons_append, splitAtNL,
      ih (fun x hx => h x (List.mem_cons_of_mem c hx))]
    simp [h c (List.mem_cons_self c cs)]

/-- `splitlines` recovers the lines from their `'\n'`-join, for nonempty
newline-free lines. -/
theorem pySplitlines_joinNL : ∀ {ls : List (List Char)},
    (∀ l ∈ ls, l ≠ [] ∧ ∀ x ∈ l, x ≠ '\n') →
    pySplitlines (joinNL ls) = ls
  | [], _ => rfl
  | [l], h => by
    have hl := h l (List.mem_cons_self _ _)
    show pySplitlines l = [l]
    unfold pySplitlines
    rw [splitAtNL_no_nl hl.2]
    rw [if_neg (by simp [hl.1])]
  | l :: l2 :: ls, h => by
    have hl := h l (List.mem_cons_self _ _)
    have htl : ∀ x ∈ l2 :: ls, x ≠ [] ∧ ∀ y ∈ x, y ≠ '\n' :=
      fun x hx => h x (List.mem_cons_of_mem _ hx)
    have ih := pySplitlines_joinNL htl
    show pySplitlines (l ++ '\n' :: joinNL (l2 :: ls)) = l :: l2 :: ls
    unfold pySplitlines at ih ⊢
    rw [splitAtNL_append hl.2]
    obtain ⟨p0, ps, hps⟩ :=
      List.exists_cons_of_ne_nil (splitAtNL_ne_nil (joinNL (l2 :: ls)))
    rw [hps] at ih ⊢
    by_cases hif : (p0 :: ps).getLast? = some []
    · rw [if_pos hif] at ih
      rw [if_pos (by rw [List.getLast?_cons_cons]; exact hif)]
      rw [List.dropLast_cons₂, ih]
    · rw [if_neg hif] at ih
      rw [if_neg (by rw [List.getLast?_cons_cons]; exact hif)]
      rw [ih]

/-- No character of a `key: value` line is a newline, for a plain key, a
newline-free value body and a non-space final character. -/
theorem kv_line_no_nl {kd : List Char} (hp : ∀ c ∈ kd, plainKeyChar c)
    {t : List Char} (ht : ∀ x ∈ t, x ≠ '\n') {c : Char}
    (hc : isPySpace c = false) :
    ∀ x ∈ kd ++ ':' :: ' ' :: (t ++ [c]), x ≠ '\n' := by
  intro x hx
  rcases List.mem_append.mp hx with h | h
  · intro he
    subst he
    exact absurd (hp _ h).1 (by decide)
  · rcases List.mem_cons.mp h with rfl | h
    · decide
    rcases List.mem_cons.mp h with rfl | h
    · decide
    rcases List.mem_append.mp h with h | h
    · exact ht x h
    · have hxc := List.mem_singleton.mp h
      subst hxc
      intro he
      subst he
      exact absurd hc (by decide)

/-- No character of a `- key: value` list-item line is a newline. -/
theorem item_line_no_nl {kd : List Char} (hp : ∀ c ∈ kd, plainKeyChar c)
    {t : List Char} (ht : ∀ x ∈ t, x ≠ '\n') {c : Char}
    (hc : isPySpace c = false) :
    ∀ x ∈ '-' :: ' ' :: (kd ++ ':' :: ' ' :: (t ++ [c])), x ≠ '\n' := by
  intro x hx
  rcases List.mem_cons.mp hx with rfl | hx
  · decide
  rcases List.mem_cons.mp hx with rfl | hx
  · decide
  exact kv_line_no_nl hp ht hc x hx

/-- C2: in the raw-text duplicate-key scanner, a mapping block with sibling
keys `a`, `b`, `a` at the same indentation yields exactly one duplicate-key
error, for the second `a`, naming line 3 and the first occurrence's line 1;
and any run of sibling list items at the same indentation each containing the
same key once yields no error at all. -/
theorem C2_duplicate_key_scanner
    (a b : List Char) (ha : a ≠ []) (hb : b ≠ [])
    (hpa : ∀ c ∈ a, plainKeyChar c) (hpb : ∀ c ∈ b, plainKeyChar c)
    (hab : a ≠ b)
    (t1 t2 t3 : List Char) (c1 c2 c3 : Char)
    (h1 : isPySpace c1 = false) (h1c : c1 ≠ ':')
    (h2 : isPySpace c2 = false) (h2c : c2 ≠ ':')
    (h3 : isPySpace c3 = false) (h3c : c3 ≠ ':')
    (hn1 : ∀ x ∈ t1, x ≠ '\n') (hn2 : ∀ x ∈ t2, x ≠ '\n')
    (hn3 : ∀ x ∈ t3, x ≠ '\n')
    (kd : List Char) (hk : kd ≠ []) (hpk : ∀ c ∈ kd, plainKeyChar c)
    (t : List Char) (c : Char) (hc : isPySpace c = false) (hc2 : c ≠ ':')
    (hnt : ∀ x ∈ t, x ≠ '\n') (m : Nat) :
    check_duplicate_keys_raw (String.mk (joinNL
        [a ++ ':' :: ' ' :: (t1 ++ [c1]),
         b ++ ':' :: ' ' :: (t2 ++ [c2]),
         a ++ ':' :: ' ' :: (t3 ++ [c3])]))
      = [dupKeyMsg 3 (String.mk a) 1]
    ∧ check_duplicate_keys_raw (String.mk (joinNL
        (List.replicate m ('-' :: ' ' :: (kd ++ ':' :: ' ' :: (t ++ [c]))))))
      = [] := by
  constructor
  · show scanLinesAux initScopes [] 1 (pySplitlines (joinNL _)) = _
    rw [pySplitlines_joinNL (by
      intro l hl
      rcases List.mem_cons.mp hl with rfl | hl
      · exact ⟨by simp, kv_line_no_nl hpa hn1 h1⟩
      rcases List.mem_cons.mp hl with rfl | hl
      · exact ⟨by simp, kv_line_no_nl hpb hn2 h2⟩
      rcases List.mem_cons.mp hl with rfl | hl
      · exact ⟨by simp, kv_line_no_nl hpa hn3 h3⟩
      exact absurd hl (List.not_mem_nil _))]
    have s1 : scanStep [⟨-1, false, []⟩] [] 1 (a ++ ':' :: ' ' :: (t1 ++ [c1]))
        = ([⟨-1, false, [(a, 1)]⟩], []) := by
      rw [scanStep_kv_base [] [] 1 a ha hpa t1 c1 h1 h1c]
      rfl
    have hba : (b == a) = false := beq_eq_false_iff_ne.mpr (fun h => hab h.symm)
    have hlb : List.lookup b [(a, 1)] = Option.none := by
      simp [List.lookup, hba]
    have s2 : scanStep [⟨-1, false, [(a, 1)]⟩] [] 2
          (b ++ ':' :: ' ' :: (t2 ++ [c2]))
        = ([⟨-1, false, [(a, 1), (b, 2)]⟩], []) := by
      rw [scanStep_kv_base [(a, 1)] [] 2 b hb hpb t2 c2 h2 h2c, hlb]
      rfl
    have hla : List.lookup a [(a, 1), (b, 2)] = some 1 := by
      simp [List.lookup]
    have s3 : scanStep [⟨-1, false, [(a, 1), (b, 2)]⟩] [] 3
          (a ++ ':' :: ' ' :: (t3 ++ [c3]))
        = ([⟨-1, false, [(a, 1), (b, 2)]⟩], [dupKeyMsg 3 (String.mk a) 1]) := by
      rw [scanStep_kv_base [(a, 1), (b, 2)] [] 3 a ha hpa t3 c3 h3 h3c, hla]
      rfl
    simp [scanLinesAux, initScopes, s1, s2, s3]
  · show scanLinesAux initScopes [] 1 (pySplitlines (joinNL _)) = _
    rw [pySplitlines_joinNL (by
      intro l hl
      rw [List.eq_of_mem_replicate hl]
      exact ⟨by simp, item_line_no_nl hpk hnt hc⟩)]
    exact scanLinesAux_items kd hk hpk t c hc hc2 [] m initScopes rfl [] 1

/-- Witness for C2: the block `x: 1 / y: 2 / x: 3` yields exactly the one
duplicate error for line 3 referring to line 1, and two sibling list items
`- id: v` yield no error. -/
theorem C2_witness :
    check_duplicate_keys_raw (String.mk (joinNL
        [['x'] ++ ':' :: ' ' :: ([] ++ ['1']),
         ['y'] ++ ':' :: ' ' :: ([] ++ ['2']),
         ['x'] ++ ':' :: ' ' :: ([] ++ ['3'])]))
      = [dupKeyMsg 3 (String.mk ['x']) 1]
    ∧ check_duplicate_keys_raw (String.mk (joinNL
        (List.replicate 2 ('-' :: ' ' :: (['i', 'd'] ++ ':' :: ' ' :: ([] ++ ['v']))))))
      = [] :=
  C2_duplicate_key_scanner ['x'] ['y'] (by decide) (by decide)
    (by decide) (by decide) (by decide)
    [] [] [] '1' '2' '3'
    (by decide) (by decide) (by decide) (by decide) (by decide) (by decide)
    (by decide) (by decide) (by decide)
    ['i', 'd'] (by decide) (by decide)
    [] 'v' (by decide) (by decide) (by decide) 2

/-! ## Claim C4 — inline flow mappings and duplicate tracking -/

/-- `dropWhile` keeps a final element that fails the predicate. -/
theorem dropWhile_append_singleton {p : Char → Bool} {c : Char}
    (hc : p c = false) :
    ∀ (u : List Char), (u ++ [c]).dropWhile p = u.dropWhile p ++ [c]
  | [] => by simp [List.dropWhile_cons, hc]
  | x :: u => by
    cases hx : p x <;>
      simp [List.dropWhile_cons, hx, dropWhile_append_singleton hc u]

/-- `rstrip` keeps a non-space head character. -/
theorem rstrip_cons_head {c : Char} (hc : isPySpace c = false)
    (l : List Char) : pyRStrip (c :: l) = c :: pyRStrip l := by
  unfold pyRStrip
  rw [List.reverse_cons, dropWhile_append_singleton hc]
  simp

/-- `strip("'\"")` keeps a leading brace. -/
theorem braceKey_head (l : List Char) :
    (pyStripChars ['\'', '"'] ('\x7b' :: l)).head? = some '\x7b' := by
  rw [pyStripChars, List.dropWhile_cons, if_neg (by decide),
    List.reverse_cons, dropWhile_append_singleton (by decide),
    List.reverse_append]
  rfl

/-- The key extracted from a line that starts with `'\x7b'` itself starts
with `'\x7b'`. -/
theorem braceLine_key_head (tail : List Char) :
    (pyStripChars ['\'', '"'] (pyStrip (beforeColon ('\x7b' :: tail)))).head?
      = some '\x7b' := by
  rw [beforeColon, List.takeWhile_cons, if_pos (by decide),
    pyStrip, lstrip_no_space_head (by decide), rstrip_cons_head (by decide)]
  exact braceKey_head _

/-- The key-handling tail skips a line that starts with `'\x7b'`: its
extracted key starts with `'\x7b'`, so nothing is recorded or flagged. -/
theorem scanKey_brace (st : List Frame) (errs : List String) (n : Nat)
    (tail : List Char) (ind : Int) :
    scanKey st errs n ('\x7b' :: tail) ind = (st, errs) := by
  simp only [scanKey]
  cases hcol : ('\x7b' :: tail).contains ':'
  · rw [if_pos (by decide)]
  · rw [if_neg (by decide)]
    simp only [matchQuoted_none (c := '\x7b') (by decide) (by decide)]
    rw [if_pos (by rw [braceLine_key_head]; simp)]

/-- A line that starts with `'\x7b'` — so whose extracted key starts with
`'\x7b'` — is skipped entirely: no error and no change to the scope stack. -/
theorem scanStep_brace (st : List Frame) (errs : List String) (n : Nat)
    (tail : List Char) :
    scanStep st errs n ('\x7b' :: tail) = (st, errs) := by
  simp only [scanStep, lstrip_no_space_head (c := '\x7b') (by decide)]
  rw [if_neg (by simp [show ('\x7b' : Char) ≠ '#' by decide])]
  rw [if_neg (by
    rw [dash_prefix_false (c := '\x7b') (by decide)]
    exact Bool.false_ne_true)]
  exact scanKey_brace st errs n tail _

/-- C4 counterexample: repeating `key: \x7ba: 1\x7d` — a key whose VALUE
begins with a brace — does produce a duplicate-key error: only a KEY
beginning with a brace is exempt from duplicate tracking. -/
theorem C4_counterexample :
    check_duplicate_keys_raw "key: \x7ba: 1\x7d\nkey: \x7ba: 1\x7d"
      = [dupKeyMsg 2 "key" 1] := by
  rfl

/-- C4 (amended): a line whose extracted KEY begins with `'\x7b'` is ignored
for duplicate tracking — it records nothing and can never be flagged — while
a plain key whose VALUE begins with `'\x7b'` is tracked like any other key:
a repeat among siblings is flagged against the first occurrence. -/
theorem C4_brace_key_skipped (st : List Frame) (errs : List String) (n : Nat)
    (tail : List Char) (sb : List (List Char × Nat)) (kd : List Char)
    (hk : kd ≠ []) (hplain : ∀ c ∈ kd, plainKeyChar c) (v : List Char) :
    scanStep st errs n ('\x7b' :: tail) = (st, errs)
    ∧ scanStep [⟨-1, false, sb⟩] errs n
        (kd ++ ':' :: ' ' :: (('\x7b' :: v) ++ ['\x7d'])) =
      match sb.lookup kd with
      | some prev =>
        ([⟨-1, false, sb⟩], errs ++ [dupKeyMsg n (String.mk kd) prev])
      | Option.none => ([⟨-1, false, sb ++ [(kd, n)]⟩], errs) :=
  ⟨scanStep_brace st errs n tail,
   scanStep_kv_base sb errs n kd hk hplain ('\x7b' :: v) '\x7d'
     (by decide) (by decide)⟩

/-- Witness for the amended C4: the line `\x7ba: 1\x7d` leaves the scanner
state untouched, while a second sibling `k: \x7ba: 1\x7d` is flagged against
the first `k` on line 1. -/
theorem C4_witness :
    scanStep [⟨-1, false, []⟩] [] 2 ('\x7b' :: ['a', ':', ' ', '1', '\x7d'])
      = ([⟨-1, false, []⟩], [])
    ∧ scanStep [⟨-1, false, [(['k'], 1)]⟩] [] 2
        (['k'] ++ ':' :: ' ' :: (('\x7b' :: ['a', ':', ' ', '1']) ++ ['\x7d']))
      = ([⟨-1, false, [(['k'], 1)]⟩], [dupKeyMsg 2 (String.mk ['k']) 1]) :=
  ⟨(C4_brace_key_skipped [⟨-1, false, []⟩] [] 2 ['a', ':', ' ', '1', '\x7d']
      [(['k'], 1)] ['k'] (by decide) (by decide) ['a', ':', ' ', '1']).1,
   (C4_brace_key_skipped [⟨-1, false, []⟩] [] 2 ['a', ':', ' ', '1', '\x7d']
      [(['k'], 1)] ['k'] (by decide) (by decide) ['a', ':', ' ', '1']).2⟩

/-! ## Claim C9 — zero rooms and missing map key -/

/-- A successful association lookup exhibits a member. -/
theorem mem_of_lookup_eq_some :
    ∀ {l : List (String × Value)} {k : String} {v : Value},
      l.lookup k = some v → (k, v) ∈ l
  | [], k, v, h => by simp [List.lookup] at h
  | (k', v') :: rest, k, v, h => by
    simp only [List.lookup] at h
    cases hk : (k == k') with
    | true =>
      rw [hk] at h
      injection h with h
      subst h
      have hkk : k = k' := eq_of_beq hk
      subst hkk
      exact List.mem_cons_self _ _
    | false =>
      rw [hk] at h
      exact List.mem_cons_of_mem _ (mem_of_lookup_eq_some h)

/-- C9: when the document's `map` mapping declares zero rooms, the map pass
adds no warning at all — in particular no reachability warning — and when the
document has no `map` key, the hard error is recorded and nothing else. -/
theorem C9_zero_rooms (d : List (String × Value))
    (enum : List String → List String) (r : Result) :
    (d.lookup "map" = some (.dict []) →
      ∀ res, check_map (.dict d) enum r = .ok res →
        res.2.2.warnings = r.warnings)
    ∧ ("map" ∉ d.map Prod.fst →
      check_map (.dict d) enum r
        = .ok ([], [], ⟨r.errors ++ [noMapMsg], r.warnings⟩)) := by
  constructor
  · intro h1 res hres
    have hany : d.any (fun kv => pyEq (Value.str "map") (Value.str kv.1)) = true :=
      List.any_eq_true.mpr ⟨("map", Value.dict []), mem_of_lookup_eq_some h1, by rfl⟩
    simp only [check_map, pyInContainer, pyHashable, hany, bindE_ok, if_true,
      Bool.not_true, Bool.false_eq_true, if_false, pySubscript, h1, pyItems,
      List.foldl_nil, mapRoomsLoop, bidirWarnings, bidirAux, pyGet] at hres
    cases hpt : pyTruthy ((List.lookup "murderLocation" d).getD Value.none) <;>
      rw [hpt] at hres
    · simp only [Bool.false_eq_true, if_false] at hres
      obtain ⟨y, -, h3⟩ := bindE_eq_ok hres
      injection h3 with h3
      subst h3
      simp
    · simp only [if_true] at hres
      obtain ⟨mem, -, h2⟩ := bindE_eq_ok hres
      obtain ⟨y, -, h3⟩ := bindE_eq_ok h2
      injection h3 with h3
      subst h3
      simp
  · intro h2
    have hne : ∀ kv ∈ d, pyEq (Value.str "map") (Value.str kv.1) = false := by
      intro kv hkv
      have hk : kv.1 ≠ "map" := fun he => h2 (he ▸ List.mem_map_of_mem Prod.fst hkv)
      simp only [pyEq]
      exact beq_eq_false_iff_ne.mpr (fun he => hk he.symm)
    have hany : d.any (fun kv => pyEq (Value.str "map") (Value.str kv.1)) = false := by
      cases ha : d.any (fun kv => pyEq (Value.str "map") (Value.str kv.1))
      · rfl
      · obtain ⟨kv, hkv, hp⟩ := List.any_eq_true.mp ha
        rw [hne kv hkv] at hp
        cases hp
    simp only [check_map, pyInContainer, pyHashable, hany, bindE_ok,
      Bool.not_false, if_true, Result.err]

/-- Witness for C9: a document whose `map` is the empty mapping keeps the
warning list empty, and the empty document gets the missing-map error. -/
theorem C9_witness :
    (([], [], (⟨[], []⟩ : Result)) :
        List String × List (String × List String) × Result).2.2.warnings
      = (⟨[], []⟩ : Result).warnings
    ∧ check_map (.dict []) idEnum ⟨[], []⟩
      = .ok ([], [], ⟨[noMapMsg], []⟩) :=
  ⟨(C9_zero_rooms [("map", Value.dict [])] idEnum ⟨[], []⟩).1 rfl
      ([], [], ⟨[], []⟩) (by rfl),
   (C9_zero_rooms [] idEnum ⟨[], []⟩).2 (by simp)⟩

/-! ## Claim C8 — one-way connection warnings -/

/-- Splitting at the first quote is unambiguous: if neither left part
contains a quote, equal concatenations have equal parts. -/
theorem append_quote_inj {s1 : List Char} :
    ∀ {s2 r1 r2 : List Char}, '\'' ∉ s1 → '\'' ∉ s2 →
    s1 ++ '\'' :: r1 = s2 ++ '\'' :: r2 → s1 = s2 ∧ r1 = r2 := by
  induction s1 with
  | nil =>
    intro s2 r1 r2 h1 h2 h
    cases s2 with
    | nil =>
      rw [List.nil_append, List.nil_append] at h
      injection h with hc ht
      exact ⟨rfl, ht⟩
    | cons c s2 =>
      rw [List.nil_append, List.cons_append] at h
      injection h with hc ht
      subst hc
      exact absurd (List.mem_cons_self _ _) h2
  | cons c s1 ih =>
    intro s2 r1 r2 h1 h2 h
    cases s2 with
    | nil =>
      rw [List.cons_append, List.nil_append] at h
      injection h with hc ht
      subst hc
      exact absurd (List.mem_cons_self _ _) h1
    | cons c2 s2 =>
      rw [List.cons_append, List.cons_append] at h
      injection h with hc ht
      subst hc
      obtain ⟨he, hr⟩ := ih (fun hm => h1 (List.mem_cons_of_mem _ hm))
        (fun hm => h2 (List.mem_cons_of_mem _ hm)) ht
      exact ⟨by rw [he], hr⟩

/-- The characters of a one-way warning, with the quote delimiters
surrounding the two room names made explicit. -/
theorem oneWayMsg_data (R t : String) :
    (oneWayMsg R t).data
      = "Map: '".data ++ (R.data ++ ('\'' :: (" → '".data ++ (t.data
          ++ ('\'' :: " is one-way (no return connection)".data))))) := by
  simp only [oneWayMsg, String.data_append, List.append_assoc]
  rfl

/-- One-way warnings separate their two room names: for quote-free names the
message determines the pair. -/
theorem oneWayMsg_inj {R t A B : String}
    (hR : ∀ c ∈ R.data, c ≠ '\'') (ht : ∀ c ∈ t.data, c ≠ '\'')
    (hA : ∀ c ∈ A.data, c ≠ '\'') (hB : ∀ c ∈ B.data, c ≠ '\'') :
    oneWayMsg R t = oneWayMsg A B ↔ (R = A ∧ t = B) := by
  constructor
  · intro h
    have hd := congrArg String.data h
    rw [oneWayMsg_data, oneWayMsg_data] at hd
    have hd2 := List.append_cancel_left hd
    obtain ⟨h1, h2⟩ := append_quote_inj
      (fun hm => hR _ hm rfl) (fun hm => hA _ hm rfl) hd2
    have h3 := List.append_cancel_left h2
    obtain ⟨h4, -⟩ := append_quote_inj
      (fun hm => ht _ hm rfl) (fun hm => hB _ hm rfl) h3
    exact ⟨String.ext h1, String.ext h4⟩
  · rintro ⟨rfl, rfl⟩
    rfl

/-- The one-way warnings contributed by one room's stored neighbor list that
read `oneWayMsg A B`: one per occurrence of `B` when the room is `A` and the
return edge is missing, none otherwise. -/
theorem count_oneWay_filterMap (full : List (String × List String))
    (A B R : String)
    (hA : ∀ c ∈ A.data, c ≠ '\'') (hB : ∀ c ∈ B.data, c ≠ '\'')
    (hR : ∀ c ∈ R.data, c ≠ '\'') :
    ∀ (nbrs : List String), (∀ s ∈ nbrs, ∀ c ∈ s.data, c ≠ '\'') →
    (nbrs.filterMap (fun target =>
        if (adjGet full target).contains R then Option.none
        else some (oneWayMsg R target))).count (oneWayMsg A B)
      = if R = A ∧ (adjGet full B).contains A = false
        then nbrs.count B else 0 := by
  intro nbrs
  induction nbrs with
  | nil => intro _; simp
  | cons s ts ih =>
    intro hq
    have hts := fun x hx => hq x (List.mem_cons_of_mem _ hx)
    have hs := hq s (List.mem_cons_self _ _)
    rw [List.filterMap_cons]
    cases hct : (adjGet full s).contains R with
    | true =>
      simp only [hct, if_true]
      rw [ih hts]
      by_cases hcond : R = A ∧ (adjGet full B).contains A = false
      · rw [if_pos hcond, if_pos hcond]
        have hsB : s ≠ B := by
          intro he
          subst he
          rw [hcond.1] at hct
          rw [hcond.2] at hct
          cases hct
        have hsb : (s == B) = false := beq_eq_false_iff_ne.mpr hsB
        rw [List.count_cons, hsb]
        simp
      · rw [if_neg hcond, if_neg hcond]
    | false =>
      simp only [hct, Bool.false_eq_true, if_false]
      rw [List.count_cons, ih hts]
      by_cases hRA : R = A
      · subst hRA
        by_cases hsB : s = B
        · subst hsB
          have hcnd : R = R ∧ (adjGet full s).contains R = false := ⟨rfl, hct⟩
          rw [if_pos hcnd, if_pos hcnd, List.count_cons]
          simp
        · have hne : (oneWayMsg R s == oneWayMsg R B) = false := by
            rw [beq_eq_false_iff_ne]
            intro he
            exact hsB ((oneWayMsg_inj hR hs hR hB).mp he).2
          rw [hne]
          have hsb : (s == B) = false := beq_eq_false_iff_ne.mpr hsB
          by_cases hcond : R = R ∧ (adjGet full B).contains R = false
          · rw [if_pos hcond, if_pos hcond, List.count_cons, hsb]
          · rw [if_neg hcond, if_neg hcond]
            simp
      · have hne : (oneWayMsg R s == oneWayMsg A B) = false := by
          rw [beq_eq_false_iff_ne]
          intro he
          exact hRA ((oneWayMsg_inj hR hs hA hB).mp he).1
        rw [hne]
        have hcond : ¬(R = A ∧ (adjGet full B).contains A = false) :=
          fun hc => hRA hc.1
        rw [if_neg hcond, if_neg hcond]
        simp

/-- Total count of a given one-way warning over the bidirectionality loop:
the sum of the per-room contributions. -/
theorem bidirAux_count (full : List (String × List String)) (A B : String)
    (hA : ∀ c ∈ A.data, c ≠ '\'') (hB : ∀ c ∈ B.data, c ≠ '\'') :
    ∀ (rest : List (String × List String)),
      (∀ p ∈ rest, (∀ c ∈ p.1.data, c ≠ '\'') ∧
        ∀ s ∈ p.2, ∀ c ∈ s.data, c ≠ '\'') →
      (bidirAux full rest).count (oneWayMsg A B)
        = (rest.map (fun p =>
            if p.1 = A ∧ (adjGet full B).contains A = false
            then p.2.count B else 0)).sum := by
  intro rest
  induction rest with
  | nil => intro _; rfl
  | cons p ps ih =>
    intro hq
    obtain ⟨R, nbrs⟩ := p
    rw [bidirAux, List.count_append,
      count_oneWay_filterMap full A B R hA hB
        (hq _ (List.mem_cons_self _ _)).1 nbrs
        (hq _ (List.mem_cons_self _ _)).2,
      ih (fun p hp => hq p (List.mem_cons_of_mem _ hp)),
      List.map_cons, List.sum_cons]

/-- The keyed sum collapses to the unique entry of the key, under unique
keys. -/
theorem sum_keyed_count (A B : String) (C : Prop) [Decidable C] :
    ∀ (l : List (String × List String)), (l.map Prod.fst).Nodup →
      ∀ {nbrs : List String}, l.lookup A = some nbrs →
      (l.map (fun p => if p.1 = A ∧ C then p.2.count B else 0)).sum
        = if C then nbrs.count B else 0 := by
  intro l
  induction l with
  | nil =>
    intro _ nbrs h
    simp [List.lookup] at h
  | cons p ps ih =>
    intro hnd nbrs hlk
    obtain ⟨k, v⟩ := p
    rw [List.map_cons] at hnd
    simp only [List.lookup] at hlk
    rw [List.map_cons, List.sum_cons]
    cases hk : (A == k) with
    | true =>
      rw [hk] at hlk
      injection hlk with hv
      subst hv
      have hkA : A = k := eq_of_beq hk
      subst hkA
      have htl : (ps.map (fun p => if p.1 = A ∧ C then p.2.count B else 0)).sum
          = 0 := by
        apply List.sum_eq_zero
        intro x hx
        obtain ⟨p', hp', rfl⟩ := List.mem_map.mp hx
        have hp1 : p'.1 ≠ A := by
          intro he
          apply (List.nodup_cons.mp hnd).1
          rw [← he]
          exact List.mem_map.mpr ⟨p', hp', rfl⟩
        rw [if_neg (fun hc => hp1 hc.1)]
      rw [htl]
      by_cases hC : C
      · rw [if_pos ⟨rfl, hC⟩, if_pos hC]
        simp
      · rw [if_neg (fun hc => hC hc.2), if_neg hC]
    | false =>
      rw [hk] at hlk
      have hkA : ¬(k = A) := by
        intro he
        rw [he] at hk
        rw [beq_self_eq_true] at hk
        cases hk
      rw [if_neg (fun hc => hkA hc.1), ih (List.nodup_cons.mp hnd).2 hlk]
      simp

/-- C8 (amended): for quote-free room names with unique room keys, the
number of one-way warnings reading `(A, B)` equals the number of times `B`
occurs in `A`'s stored neighbor list when `B` declares no return edge to
`A`, and is zero otherwise — in particular it is exactly one when `A`'s
`connects_to` lists `B` once without a return edge, and the pair is never
flagged again on `B`'s side; but a duplicated `connects_to` entry is warned
once per occurrence. -/
theorem C8_one_way_count (adj : List (String × List String)) (A B : String)
    (nbrs : List String)
    (hq : ∀ p ∈ adj, (∀ c ∈ p.1.data, c ≠ '\'') ∧
      ∀ s ∈ p.2, ∀ c ∈ s.data, c ≠ '\'')
    (hA : ∀ c ∈ A.data, c ≠ '\'') (hB : ∀ c ∈ B.data, c ≠ '\'')
    (hnd : (adj.map Prod.fst).Nodup) (hlk : adj.lookup A = some nbrs) :
    (bidirWarnings adj).count (oneWayMsg A B)
      = if (adjGet adj B).contains A = true then 0 else nbrs.count B := by
  rw [bidirWarnings, bidirAux_count adj A B hA hB adj hq,
    sum_keyed_count A B _ adj hnd hlk]
  cases hc : (adjGet adj B).contains A <;> simp [hc]

/-- C8 counterexample: a room whose `connects_to` lists the same missing
return target twice gets TWO one-way warnings for the pair, not exactly
one. -/
theorem C8_counterexample :
    check_map
        (.dict [("map", .dict [("A", .list [.str "B", .str "B"]),
          ("B", .list [])])])
        idEnum ⟨[], []⟩
      = .ok (["A", "B"], [("A", ["B", "B"]), ("B", [])],
          ⟨[], [oneWayMsg "A" "B", oneWayMsg "A" "B"]⟩)
    ∧ [oneWayMsg "A" "B", oneWayMsg "A" "B"].count (oneWayMsg "A" "B") = 2 := by
  constructor
  · have hdfs : dfsAux [("A", ["B", "B"]), ("B", [])] [] ["A"] = ["A", "B"] := by
      simp +decide [dfsAux, adjGet, List.lookup]
    simp +decide [check_map, pyInContainer, pyHashable, pyEq, pySubscript,
      pyItems, List.lookup, mapRoomsLoop, pyIterList, probeInteractables,
      pyGet, processTargets, pyStrSetMem, pyTruthy, bidirWarnings, bidirAux,
      adjGet, dfs_reachable, hdfs, idEnum, bindE_ok,
      List.foldl_cons, List.foldl_nil, List.filterMap_cons]
  · rfl

/-- Witness for the amended C8: in the map `A: [B]`, `B: []` the pair
`(A, B)` is warned exactly once. -/
theorem C8_witness :
    (bidirWarnings [("A", ["B"]), ("B", [])]).count (oneWayMsg "A" "B") = 1 :=
  (C8_one_way_count [("A", ["B"]), ("B", [])] "A" "B" ["B"]
    (by decide) (by decide) (by decide) (by decide) rfl).trans (by decide)

/-! ## Claim C3 — run-to-run stability of the message sequences -/

/-- C3 counterexample: the unreachable-room warnings are emitted in the
iteration order of the Python set `rooms - reachable`, which is
hash-dependent: two valid set-iteration orders of the same document yield
the same errors but differently ordered warning sequences. -/
theorem C3_counterexample :
    check_map (.dict [("map", .dict [("A", .list []), ("B", .list []),
          ("C", .list [])])]) idEnum ⟨[], []⟩
      = .ok (["A", "B", "C"], [("A", []), ("B", []), ("C", [])],
          ⟨[], [unreachableMsg "B" "A", unreachableMsg "C" "A"]⟩)
    ∧ check_map (.dict [("map", .dict [("A", .list []), ("B", .list []),
          ("C", .list [])])]) revEnum ⟨[], []⟩
      = .ok (["A", "B", "C"], [("A", []), ("B", []), ("C", [])],
          ⟨[], [unreachableMsg "C" "A", unreachableMsg "B" "A"]⟩)
    ∧ (∀ l, (idEnum l).Perm l) ∧ (∀ l, (revEnum l).Perm l)
    ∧ [unreachableMsg "B" "A", unreachableMsg "C" "A"]
        ≠ [unreachableMsg "C" "A", unreachableMsg "B" "A"] := by
  have hdfs : dfsAux [("A", []), ("B", []), ("C", [])] [] ["A"] = ["A"] := by
    simp +decide [dfsAux, adjGet, List.lookup]
  refine ⟨?_, ?_, fun l => List.Perm.refl l, fun l => List.reverse_perm l,
    by decide⟩
  · simp +decide [check_map, pyInContainer, pyHashable, pyEq, pySubscript,
      pyItems, List.lookup, mapRoomsLoop, pyIterList, probeInteractables,
      pyGet, processTargets, pyStrSetMem, pyTruthy, bidirWarnings, bidirAux,
      adjGet, dfs_reachable, hdfs, idEnum, bindE_ok,
      List.foldl_cons, List.foldl_nil, List.filterMap_cons]
  · simp +decide [check_map, pyInContainer, pyHashable, pyEq, pySubscript,
      pyItems, List.lookup, mapRoomsLoop, pyIterList, probeInteractables,
      pyGet, processTargets, pyStrSetMem, pyTruthy, bidirWarnings, bidirAux,
      adjGet, dfs_reachable, hdfs, revEnum, bindE_ok,
      List.foldl_cons, List.foldl_nil, List.filterMap_cons]

/-- C3 (amended): for a fixed document, the map pass is stable across valid
set-iteration orders UP TO PERMUTATION of the reachability-warning segment:
the returned room list, adjacency and error sequence are identical, and the
warning sequences are permutations of each other. -/
theorem C3_enum_stability (d : Value) (r : Result)
    (enum1 enum2 : List String → List String)
    (h1 : ∀ l, (enum1 l).Perm l) (h2 : ∀ l, (enum2 l).Perm l)
    (o1 o2 : List String × List (String × List String) × Result)
    (hr1 : check_map d enum1 r = .ok o1)
    (hr2 : check_map d enum2 r = .ok o2) :
    o1.1 = o2.1 ∧ o1.2.1 = o2.2.1 ∧ o1.2.2.errors = o2.2.2.errors
      ∧ o1.2.2.warnings.Perm o2.2.2.warnings := by
  simp only [check_map] at hr1 hr2
  obtain ⟨b, hb, hr1⟩ := bindE_eq_ok hr1
  obtain ⟨b2, hb2, hr2⟩ := bindE_eq_ok hr2
  rw [hb] at hb2
  injection hb2 with he
  subst he
  cases b with
  | false =>
    rw [if_pos (by decide)] at hr1 hr2
    injection hr1 with h1'
    injection hr2 with h2'
    subst h1'
    subst h2'
    exact ⟨rfl, rfl, rfl, List.Perm.refl _⟩
  | true =>
    rw [if_neg (by decide)] at hr1 hr2
    obtain ⟨mv, hmv, hr1⟩ := bindE_eq_ok hr1
    obtain ⟨mv2, hmv2, hr2⟩ := bindE_eq_ok hr2
    rw [hmv] at hmv2
    injection hmv2 with he
    subst he
    obtain ⟨entries, hent, hr1⟩ := bindE_eq_ok hr1
    obtain ⟨entries2, hent2, hr2⟩ := bindE_eq_ok hr2
    rw [hent] at hent2
    injection hent2 with he
    subst he
    obtain ⟨la, hla, hr1⟩ := bindE_eq_ok hr1
    obtain ⟨la2, hla2, hr2⟩ := bindE_eq_ok hr2
    rw [hla] at hla2
    injection hla2 with he
    subst he
    obtain ⟨ml, hml, hr1⟩ := bindE_eq_ok hr1
    obtain ⟨ml2, hml2, hr2⟩ := bindE_eq_ok hr2
    rw [hml] at hml2
    injection hml2 with he
    subst he
    cases hpt : pyTruthy ml with
    | false =>
      rw [hpt] at hr1 hr2
      rw [if_neg (by decide)] at hr1 hr2
      obtain ⟨y, hy, hr1⟩ := bindE_eq_ok hr1
      obtain ⟨y2, hy2, hr2⟩ := bindE_eq_ok hr2
      rw [hy] at hy2
      injection hy2 with he
      subst he
      injection hr1 with h1'
      injection hr2 with h2'
      subst h1'
      subst h2'
      refine ⟨rfl, rfl, rfl, ?_⟩
      apply List.Perm.append_left
      cases entries with
      | nil => exact List.Perm.refl _
      | cons p tail =>
        obtain ⟨start, v⟩ := p
        exact List.Perm.map _ ((h1 _).trans (h2 _).symm)
    | true =>
      rw [hpt] at hr1 hr2
      rw [if_pos rfl] at hr1 hr2
      obtain ⟨mem, hm, hr1⟩ := bindE_eq_ok hr1
      obtain ⟨mem2, hm2, hr2⟩ := bindE_eq_ok hr2
      rw [hm] at hm2
      injection hm2 with he
      subst he
      obtain ⟨y, hy, hr1⟩ := bindE_eq_ok hr1
      obtain ⟨y2, hy2, hr2⟩ := bindE_eq_ok hr2
      rw [hy] at hy2
      injection hy2 with he
      subst he
      injection hr1 with h1'
      injection hr2 with h2'
      subst h1'
      subst h2'
      refine ⟨rfl, rfl, rfl, ?_⟩
      apply List.Perm.append_left
      cases entries with
      | nil => exact List.Perm.refl _
      | cons p tail =>
        obtain ⟨start, v⟩ := p
        exact List.Perm.map _ ((h1 _).trans (h2 _).symm)

/-- Witness for the amended C3: on a document whose `map` is empty both
enumerations give the same successful result. -/
theorem C3_witness :
    ([] : List String) = [] ∧
    ([] : List (String × List String)) = [] ∧
    ([] : List String) = [] ∧
    (([] : List String)).Perm [] :=
  C3_enum_stability (.dict [("map", .dict [])]) ⟨[], []⟩ idEnum revEnum
    (fun l => List.Perm.refl l) (fun l => List.reverse_perm l)
    ([], [], ⟨[], []⟩) ([], [], ⟨[], []⟩) rfl rfl

/-! ## Claim C10 — empty killer name suppresses the win-conditions warning -/

/-- The empty pattern occurs as a run of every list. -/
theorem listHasRun_nil : ∀ (l : List Char), listHasRun [] l = true
  | [] => rfl
  | c :: rest => by
    rw [listHasRun]
    simp [List.isPrefixOf]

/-- The empty string is a Python substring of every string. -/
theorem pyInStr_empty (s : String) : pyInStr "" s = true := by
  rw [pyInStr]
  exact listHasRun_nil s.data

/-- C10: when the killer id does not resolve among the suspects-by-id
mapping, or resolves to a suspect whose `name` is missing or empty, the
looked-up name is the empty string, the empty string is a substring of every
serialized win-conditions text, and so the win-conditions warning is never
emitted — whatever the text says. -/
theorem C10_empty_name_suppresses (data killerId : Value)
    (suspectsById : List (Value × Value))
    (hname : pyGet ((pyAssocGet suspectsById killerId).getD (.dict []))
        "name" (.str "") = .ok (.str "")) :
    ∀ res, narrWinConditions data killerId suspectsById = .ok res →
      winCondMsg killerId ∉ res := by
  intro res hres
  simp only [narrWinConditions] at hres
  obtain ⟨wc, hwc, hres⟩ := bindE_eq_ok hres
  cases hcond : pyTruthy wc && pyTruthy killerId
  · rw [hcond] at hres
    rw [if_neg (by decide)] at hres
    injection hres with hres
    subst hres
    simp
  · rw [hcond] at hres
    rw [if_pos rfl] at hres
    cases hhash : pyHashable killerId
    · rw [hhash] at hres
      rw [if_neg (by decide), bindE_err] at hres
      cases hres
    · rw [hhash] at hres
      rw [if_pos rfl, bindE_ok, hname, bindE_ok,
        show pyLower (.str "") = .ok "" from rfl, bindE_ok] at hres
      obtain ⟨kidL, -, hres⟩ := bindE_eq_ok hres
      simp only [pyInStr_empty, Bool.not_true, Bool.and_false] at hres
      rw [if_neg (by decide)] at hres
      injection hres with hres
      subst hres
      simp

/-- Witness for C10: an unresolved killer id `K` with a nonempty
win-conditions text that mentions neither the id nor any name draws no
warning. -/
theorem C10_witness : winCondMsg (.str "K") ∉ ([] : List String) :=
  C10_empty_name_suppresses
    (.dict [("win_conditions", .dict [("x", .str "y")])]) (.str "K") [] rfl
    [] rfl

end VerifyCase
